import Mathlib

/-!
A verification development for the analytical storage-performance
estimator consisting of `SimCPU.py`, `SimIFC.py`, `SimDisk.py`,
`Server.py`, `Dlm.py` and `Gateway.py`.

Modelling conventions:

* All numeric values are modelled as exact rationals (`ℚ`) and the
  Python `/` operator as exact rational division.  The sources are
  version-agnostic Python (they parse and run under Python 3, where
  every `/` is true division), and the specification describes the
  computations as real-valued closed forms; IEEE-754 rounding is
  idealised away.  In `ℚ`, `x / 0 = 0`; theorems carry positivity
  hypotheses wherever a denominator could otherwise vanish.
* The modules `units.py` and `SimFS.py` are part of this repository
  but are not present under `src/` (they are imported by the files
  that are).  Per the specification they are modelled explicitly:
  the scale constants from §6, and the file-system layer as an
  abstract component exposing timing primitives.
* The accumulated-warnings side channel (`warn`) never influences a
  returned `(latency, bandwidth, load)` triple, so the numeric
  operation models omit the `warn` calls; `warn` itself is modelled
  separately (on strings as character lists) for the deduplication
  property.
* A second, dynamic-lookup model (suffix `E`, over `Except`) mirrors
  the operations statement by statement, resolving every method call
  made on the `SimCPU.CPU` object through the attribute table that
  class actually defines; it settles the crash claim.
-/

/-- Modelled from the spec: `units.py` is missing from `src/`; §6 fixes
KB = 1024, MB = 1024², GB = 1024³, TB = 1024⁴ and SECOND = 10⁶ µs, and
the sources additionally use the spellings MEG/GIG/TERA for MB/GB/TB. -/
def KB : ℚ := 1024

/-- MB = 1024² bytes (spelled `MB`/`MEG` in the sources). -/
def MB : ℚ := 1024 * 1024

/-- MEG = MB (source spelling). -/
def MEG : ℚ := MB

/-- GIG = 1024³ bytes. -/
def GIG : ℚ := 1024 * 1024 * 1024

/-- TERA = 1024⁴ bytes. -/
def TERA : ℚ := 1024 * 1024 * 1024 * 1024

/-- SECOND = 10⁶ microseconds. -/
def SECOND : ℚ := 1000000

namespace Model

/-- The processor model of `SimCPU.py` (class `CPU`): the constructor
precomputes clock rate, bus/memory bandwidths and the fixed
interrupt/dispatch/DMA service costs.  `thread_us` is modelled from the
spec: `SimCPU.CPU` itself defines no such attribute (see the crash
claim), but §4.2 describes the fixed per-transfer cost as a "DMA/dispatch
cost", so the intended value is the thread-dispatch time `disp_us`. -/
structure CPU where
  cores : ℚ
  mhz : ℚ
  hyperthread : ℚ
  bus_bw : ℚ
  mem_bw : ℚ
  intr_us : ℚ
  disp_us : ℚ
  dma_us : ℚ
  thread_us : ℚ


/-- `CPU.__init__(name, cores, speed, ddr)` from `SimCPU.py`
(bus width 8 bytes, hyperthread multiplier 1.3, cost constants
intr = 30000, disp = 100000, dma = 30000 cycles). -/
def CPU.make (cores speed ddr : ℚ) : CPU :=
  let mhz := speed / MEG
  { cores := cores
    mhz := mhz
    hyperthread := 13/10
    bus_bw := speed * 8
    mem_bw := ddr * 8
    intr_us := 30000 / mhz
    disp_us := 100000 / mhz
    dma_us := 30000 / mhz
    thread_us := 100000 / mhz }

/-- `CPU.mem_read`: elapsed time to read uncached bytes. -/
def CPU.mem_read (c : CPU) (bytes : ℚ) : ℚ :=
  bytes * SECOND / min c.bus_bw c.mem_bw

/-- `CPU.mem_write`: elapsed time to write bytes. -/
def CPU.mem_write (c : CPU) (bytes : ℚ) : ℚ :=
  bytes * SECOND / min c.bus_bw c.mem_bw

/-- `CPU.process`: elapsed time to process bytes (note: the source
divides by `bus_bw` alone, not by `min(bus_bw, mem_bw)`). -/
def CPU.process (c : CPU) (bytes : ℚ) : ℚ :=
  bytes * SECOND / c.bus_bw

/-- The bounded M/M/1 queue-depth approximation of `IFC.queue_length`
(`SimIFC.py`): saturation (`rho ≥ 1`) pins the queue at `max_depth`,
otherwise `rho/(1-rho)` capped at `max_depth`. -/
def queueLength (rho max_depth : ℚ) : ℚ :=
  if 1 ≤ rho then max_depth
  else
    let avg := rho / (1 - rho)
    if avg < max_depth then avg else max_depth

/-- Modelled from the spec: `Server.py` and `Gateway.py` invoke
`queue_length` on the CPU object (which `SimCPU.CPU` does not define —
see the crash claim); §3/§4.2 describe the intended function as the one
bounded M/M/1 formula used by every layer. -/
def CPU.queue_length (_ : CPU) (rho max_depth : ℚ) : ℚ :=
  queueLength rho max_depth

/-- The network-interface/HBA model of `SimIFC.py` (class `IFC`):
maximum bandwidths, minimum latencies and the per-byte CPU/memory
multipliers filled in by the subclasses. -/
structure IFC where
  max_read_bw : ℚ
  max_write_bw : ℚ
  cpu : CPU
  cpu_per_read : ℚ
  cpu_per_write : ℚ
  min_read_latency : ℚ
  min_write_latency : ℚ
  cpu_read_x : ℚ
  cpu_write_x : ℚ
  mem_read_x : ℚ
  mem_write_x : ℚ


/-- `NIC.__init__` (`SimIFC.py`): bandwidth argument is bits/s, stored
as bytes/s (`bw / 8`).  Note that the constructor assigns
`cpu_min_read`/`cpu_min_write` (attributes `read_cpu` never consults)
while `cpu_per_read`/`cpu_per_write` keep their base-class value 0. -/
def NIC.make (bw : ℚ) (cpu : CPU) : IFC :=
  { max_read_bw := bw / 8
    max_write_bw := bw / 8
    cpu := cpu
    cpu_per_read := 0
    cpu_per_write := 0
    min_read_latency := 5
    min_write_latency := 5
    cpu_read_x := 5
    cpu_write_x := 5
    mem_read_x := 2
    mem_write_x := 2 }

/-- `HBA.__init__` (`SimIFC.py`). -/
def HBA.make (bw : ℚ) (cpu : CPU) : IFC :=
  { max_read_bw := bw / 8
    max_write_bw := bw / 8
    cpu := cpu
    cpu_per_read := 0
    cpu_per_write := 0
    min_read_latency := 1
    min_write_latency := 1
    cpu_read_x := 0
    cpu_write_x := 0
    mem_read_x := 0
    mem_write_x := 0 }

/-- `IFC.read_time`: wire time for a transfer of `bytes`. -/
def IFC.read_time (i : IFC) (bytes : ℚ) : ℚ :=
  i.min_read_latency + SECOND * bytes / i.max_read_bw

/-- `IFC.write_time`: wire time for a transfer of `bytes`. -/
def IFC.write_time (i : IFC) (bytes : ℚ) : ℚ :=
  i.min_write_latency + SECOND * bytes / i.max_write_bw

/-- `IFC.read_cpu`: CPU cost of a read transfer (the two leading method
calls `cpu.dma_us()`/`cpu.thread_us()` resolved to the modelled
values; the dynamic-lookup model below keeps them as calls). -/
def IFC.read_cpu (i : IFC) (bytes : ℚ) : ℚ :=
  i.cpu.dma_us + i.cpu.thread_us + i.cpu_per_read
    + i.mem_read_x * i.cpu.mem_read bytes
    + i.cpu_read_x * i.cpu.process bytes

/-- `IFC.write_cpu`: CPU cost of a write transfer. -/
def IFC.write_cpu (i : IFC) (bytes : ℚ) : ℚ :=
  i.cpu.dma_us + i.cpu.thread_us + i.cpu_per_write
    + i.mem_write_x * i.cpu.mem_write bytes
    + i.cpu_write_x * i.cpu.process bytes

/-- `IFC.queue_length`. -/
def IFC.queue_length (_ : IFC) (rho max_depth : ℚ) : ℚ :=
  queueLength rho max_depth

end Model

namespace Model

/-- The rotating-disk model of `SimDisk.py` (class `Disk`): drive
characterising constants (class attributes, overridden by `DumbDisk`),
geometry derived in the constructor, and the cache heuristics. -/
structure Disk where
  settle_read : ℚ
  write_delta : ℚ
  max_seek : ℚ
  avg_seek : ℚ
  nr_requests : ℚ
  do_writeback : Bool
  do_readahead : Bool
  sched_rotate : Bool
  cache_multiplier : ℚ
  cache_max_tracks : ℚ
  cache_max_depth : ℚ
  rpm : ℚ
  size : ℚ
  media_speed : ℚ
  heads : ℚ
  trk_size : ℚ
  cyl_size : ℚ
  cylinders : ℚ


/-- `Disk.__init__(rpm, size, bw, heads)`: track/cylinder geometry is
inferred from rpm and media speed. -/
def Disk.make (rpm size bw heads : ℚ) : Disk :=
  let trk_size := bw / (rpm / 60)
  let cyl_size := trk_size * heads
  { settle_read := 800
    write_delta := 600
    max_seek := 13000
    avg_seek := 5500
    nr_requests := 128
    do_writeback := true
    do_readahead := true
    sched_rotate := true
    cache_multiplier := 96
    cache_max_tracks := 4
    cache_max_depth := 5
    rpm := rpm
    size := size
    media_speed := bw
    heads := heads
    trk_size := trk_size
    cyl_size := cyl_size
    cylinders := size / cyl_size }

/-- `DumbDisk.__init__`: a `Disk` with caching/scheduling disabled and
pessimistic seek constants. -/
def DumbDisk.make (rpm size bw heads : ℚ) : Disk :=
  { Disk.make rpm size bw heads with
    do_writeback := false
    do_readahead := false
    sched_rotate := false
    nr_requests := 1
    settle_read := 1000
    write_delta := 1000
    max_seek := 20000
    avg_seek := 8000 }

/-- `Disk.cylinders_in`: cylinders spanned by a byte range. -/
def Disk.cylinders_in (d : Disk) (bytes : ℚ) : ℚ :=
  1 + bytes / d.cyl_size

/-- `Disk.seekTime`: the lesser of a long-seek extrapolation and a
short-seek approximation; writes pay `write_delta` on top. -/
def Disk.seekTime (d : Disk) (cyls : ℚ) (read : Bool) : ℚ :=
  if cyls < 1 then 0
  else
    let travel :=
      if cyls ≥ d.cylinders then d.max_seek
      else
        let delta_us := d.max_seek - d.avg_seek
        let delta_cyl := 2 * d.cylinders / 3
        let us_per_cyl := delta_us / delta_cyl
        let long_seek := d.max_seek - (d.cylinders - cyls) * us_per_cyl
        let short_seek := d.settle_read + (cyls - 1) * d.settle_read / 2
        min short_seek long_seek
    if read then travel else travel + d.write_delta

/-- `Disk.xferTime`: media transfer time plus a settle-down penalty for
each cylinder boundary the operation spills over. -/
def Disk.xferTime (d : Disk) (bytes : ℚ) (read : Bool) : ℚ :=
  let time := bytes * SECOND / d.media_speed
  let seeks := bytes / d.cyl_size
  time + seeks * (if read then d.settle_read else d.settle_read + d.write_delta)

/-- `Disk.cache_size`: the non-aggressive read-ahead/write-back cache
size heuristic. -/
def Disk.cache_size (d : Disk) (size : ℚ) (read : Bool) (depth : ℚ) : ℚ :=
  if read ∧ ¬ d.do_readahead then 0
  else if ¬ read ∧ ¬ d.do_writeback then 0
  else if size > d.trk_size then 0
  else
    let c := size * d.cache_multiplier * min depth d.cache_max_depth
    let m := d.cache_max_tracks * d.trk_size
    min c m

/-- `Disk.latency`: expected rotational-latency wait, reduced by the
cache/queue-depth effects. -/
def Disk.latency (d : Disk) (size : ℚ) (read seq : Bool) (depth : ℚ) : ℚ :=
  let l := if d.rpm > 0 then (SECOND / (d.rpm / 60)) / 2 else 0
  let c := d.cache_size size read depth
  let n := if c > size then c / size else 1
  if seq then
    if n > 1 then l / n
    else if depth > 1 then l / depth
    else l
  else if d.sched_rotate then
    if read then l / depth
    else if depth > n then l / depth
    else if n > 1 then l / n
    else if c > 0 then l / 2
    else l
  else l

/-- `Disk.avgTime`: average operation time; the requested depth is
clamped to `nr_requests` before any use. -/
def Disk.avgTime (d : Disk) (bsize file_size : ℚ) (read seq : Bool)
    (depth : ℚ) : ℚ :=
  let tXfer := d.xferTime bsize read
  let depth := if depth > d.nr_requests then d.nr_requests else depth
  let tLatency := d.latency bsize read seq depth
  if seq then tXfer + tLatency
  else
    let cyls := d.cylinders_in file_size
    let avgcyls := cyls / (depth + 2)
    tXfer + tLatency + d.seekTime avgcyls read

/-- The SSD model of `SimDisk.py` (class `SSD`): iops-bound with a
stream-limited setup cost and a write allocation-overhead multiplier.
The fields it inherits from `Disk` that its own methods consult
(`media_speed`, `cyl_size`, zero settle/seek constants) are kept. -/
structure SSD where
  size : ℚ
  media_speed : ℚ
  max_iops : ℚ
  nr_requests : ℚ
  write_penalty : ℚ
  settle_read : ℚ
  write_delta : ℚ
  cyl_size : ℚ


/-- `SSD.__init__(size, bw, iops, streams)`. -/
def SSD.make (size bw iops streams : ℚ) : SSD :=
  { size := size
    media_speed := bw
    max_iops := iops
    nr_requests := streams
    write_penalty := 21/20
    settle_read := 0
    write_delta := 0
    cyl_size := size / 1 }

/-- The inherited `Disk.xferTime` as invoked on an `SSD` (its settle
constants are zero, so the spill term vanishes). -/
def SSD.xferTime (s : SSD) (bytes : ℚ) (read : Bool) : ℚ :=
  let time := bytes * SECOND / s.media_speed
  let seeks := bytes / s.cyl_size
  time + seeks * (if read then s.settle_read else s.settle_read + s.write_delta)

/-- `SSD.avgTime`: transfer time (with write penalty) plus a
`SECOND/max_iops` setup cost shared among `min(depth, streams)`. -/
def SSD.avgTime (s : SSD) (bsize _file_size : ℚ) (read _seq : Bool)
    (depth : ℚ) : ℚ :=
  let tXfer0 := s.xferTime bsize read
  let tXfer := if read then tXfer0 else tXfer0 * s.write_penalty
  let setup := SECOND / s.max_iops
  let setup := setup / (if depth < s.nr_requests then depth else s.nr_requests)
  setup + tXfer

end Model

namespace Model

/-- The `(latency, bandwidth, load['cpu'])` triple a file-system
primitive returns (the only load entry the server consults). -/
structure FSRes where
  latency : ℚ
  bw : ℚ
  cpuLoad : ℚ


/-- Modelled from the spec: `SimFS.py` is part of this repository but
not under `src/`.  §1/§2 scope the file-system layer out as an external
collaborator "exposing `read`/`write`/`create`/`delete`/`open`/
`getattr`/`setattr` timing primitives"; it is therefore modelled as an
abstract record of those primitives, each returning an `FSRes`. -/
structure SimFS where
  size : ℚ
  fsOpen : FSRes
  read : ℚ → ℚ → Bool → ℚ → FSRes
  write : ℚ → ℚ → Bool → Bool → ℚ → FSRes
  create : Bool → FSRes
  getattr : FSRes
  setattr : Bool → FSRes

/-- The block-server model of `Server.py` (class `Server`):
component references, per-node multiplicities, and the sizing/tuning
constants assigned in the constructor. -/
structure Server where
  data_fs : SimFS
  nic : IFC
  hba : IFC
  cpu : CPU
  num_disks : ℚ
  num_nics : ℚ
  num_hbas : ℚ
  num_cpus : ℚ
  write_buf : ℚ
  min_msg : ℚ
  data_width : ℚ
  max_obj_size : ℚ
  r_cpu_x : ℚ
  w_cpu_x : ℚ
  r_mem_x : ℚ
  w_mem_x : ℚ
  commit_us : ℚ

/-- `Server.__init__(data_fs, nic, hba, cpu, ...)`. -/
def Server.make (fs : SimFS) (nic hba : IFC) (cpu : CPU)
    (num_disks num_nics num_hbas num_cpus writeback : ℚ) : Server :=
  { data_fs := fs
    nic := nic
    hba := hba
    cpu := cpu
    num_disks := num_disks
    num_nics := num_nics
    num_hbas := num_hbas
    num_cpus := num_cpus
    write_buf := writeback
    min_msg := 128
    data_width := 128 * 1024
    max_obj_size := 4 * 1024 * 1024
    r_cpu_x := 1
    w_cpu_x := 1
    r_mem_x := 1/2
    w_mem_x := 1
    commit_us := 1 }

/-- The load report of `Server.read`/`Server.write`:
`{fs, hba, net, cpu}` utilisations. -/
structure SrvLoad where
  fs : ℚ
  hba : ℚ
  net : ℚ
  cpu : ℚ


/-- All intermediate quantities of `Server.read`, named as in the
source, so that individual claims can refer to them. -/
structure SrvRead where
  t_net_r : ℚ
  t_net_w : ℚ
  bw_n : ℚ
  cpu_msg : ℚ
  t_open : ℚ
  cpu_open : ℚ
  d : ℚ
  s_eff : Bool
  req_per_read : ℚ
  t_fr : ℚ
  cpu_fs : ℚ
  t_dsk : ℚ
  bw_fs : ℚ
  avail_cores : ℚ
  tot_cpu : ℚ
  bw_cpu : ℚ
  bw_hba : ℚ
  latency : ℚ
  bw_base : ℚ
  bandwidth : ℚ
  iops : ℚ
  q_delay : ℚ
  load : SrvLoad


/-- `Server.read(bsize, depth, seq)`, statement by statement (the
`warn` calls do not affect the returned values and are omitted;
the redundant first `data_fs.read` call inside the sequential branch
is overwritten unused by the second, identical one). -/
def Server.readCore (s : Server) (bsize depth : ℚ) (seq : Bool) : SrvRead :=
  let t_net_r := s.nic.min_read_latency + s.nic.read_time s.min_msg
  let t_net_w := s.nic.min_write_latency + s.nic.write_time (s.min_msg + bsize)
  let bw_n := s.num_nics * bsize * SECOND / t_net_w
  let cpu_msg := s.nic.read_cpu s.min_msg
    + s.r_cpu_x * s.cpu.process bsize
    + s.r_mem_x * s.cpu.mem_read bsize
    + s.nic.write_cpu (s.min_msg + bsize)
  let opn := s.data_fs.fsOpen
  let cpu_open0 := opn.cpuLoad * SECOND
  let t_open :=
    if bsize < s.max_obj_size then
      if seq then opn.latency / (s.max_obj_size / bsize)
      else opn.latency / 1
    else opn.latency
  let cpu_open :=
    if bsize < s.max_obj_size ∧ seq then cpu_open0 / (s.max_obj_size / bsize)
    else cpu_open0
  let w := s.data_width
  let sz := s.data_fs.size
  -- sequential: aggregate or split over full strips; random: spread
  -- over the disks, multi-strip requests split into sequential strips
  let drs : ℚ × Bool × ℚ :=
    if seq then
      if w ≥ depth * bsize then (max 1 (depth * bsize / w), seq, w / bsize)
      else (depth * bsize / w, seq, w / bsize)
    else
      let disks := min depth s.num_disks
      let d := max 1 (depth / disks)
      if bsize ≤ w then (d, seq, 1)
      else (d * (bsize / w), true, w / bsize)
  let fr := s.data_fs.read w sz drs.2.1 drs.1
  let t_fr := fr.latency / drs.2.2
  let cpu_fs := fr.cpuLoad * SECOND / drs.2.2
  let t_dsk := t_open + t_fr
  let bw_fs := SECOND * bsize * s.num_disks / t_dsk
  let avail_cores := s.num_cpus * s.cpu.cores * s.cpu.hyperthread
  let tot_cpu := cpu_msg + cpu_fs + cpu_open
  let bw_cpu := avail_cores * bsize * SECOND / tot_cpu
  let bw_hba := s.num_hbas * s.hba.max_read_bw
  let latency := cpu_msg + t_open + t_fr + t_net_w
  let bw_base := depth * bsize * SECOND / latency
  let bandwidth := min (min (min (min bw_base bw_n) bw_fs) bw_cpu) bw_hba
  let iops := bandwidth / bsize
  let nic_load := t_net_w * iops / (s.num_nics * SECOND)
  let delay_n := t_net_w * s.nic.queue_length nic_load depth
  let core_load := tot_cpu * iops / (avail_cores * SECOND)
  let delay_c := tot_cpu * s.cpu.queue_length core_load depth
  { t_net_r := t_net_r
    t_net_w := t_net_w
    bw_n := bw_n
    cpu_msg := cpu_msg
    t_open := t_open
    cpu_open := cpu_open
    d := drs.1
    s_eff := drs.2.1
    req_per_read := drs.2.2
    t_fr := t_fr
    cpu_fs := cpu_fs
    t_dsk := t_dsk
    bw_fs := bw_fs
    avail_cores := avail_cores
    tot_cpu := tot_cpu
    bw_cpu := bw_cpu
    bw_hba := bw_hba
    latency := latency
    bw_base := bw_base
    bandwidth := bandwidth
    iops := iops
    q_delay := delay_n + delay_c
    load := { fs := bandwidth / bw_fs
              hba := bandwidth / bw_hba
              net := nic_load
              cpu := core_load } }

/-- The `(latency, bandwidth, load)` triple `Server.read` returns. -/
def Server.read (s : Server) (bsize depth : ℚ) (seq : Bool) :
    ℚ × ℚ × SrvLoad :=
  let r := s.readCore bsize depth seq
  (r.latency + r.q_delay, r.bandwidth, r.load)

/-- All intermediate quantities of `Server.write`. -/
structure SrvWrite where
  t_net_r : ℚ
  t_net_w : ℚ
  bw_n : ℚ
  t_dsp : ℚ
  t_cpu : ℚ
  t_rsp : ℚ
  t_crt : ℚ
  cpu_crt : ℚ
  t_fw : ℚ
  t_disk : ℚ
  t_async : ℚ
  bw_fs : ℚ
  bw_hba : ℚ
  t_sync : ℚ
  cpu_per_op : ℚ
  avail_cores : ℚ
  bw_cpu : ℚ
  latency : ℚ
  bw_base : ℚ
  bandwidth : ℚ
  iops : ℚ
  q_delay : ℚ
  load : SrvLoad


/-- `Server.write(bsize, depth, seq)`, statement by statement
(`warn` calls omitted, as above). -/
def Server.writeCore (s : Server) (bsize depth : ℚ) (seq : Bool) : SrvWrite :=
  let t_net_r := s.nic.min_read_latency + s.nic.read_time (s.min_msg + bsize)
  let t_net_w := s.nic.min_write_latency + s.nic.write_time s.min_msg
  let bw_n := s.num_nics * bsize * SECOND / t_net_r
  let t_dsp := s.nic.read_cpu (s.min_msg + bsize)
  let t_cpu := s.w_cpu_x * s.cpu.process bsize
    + s.w_mem_x * s.cpu.mem_write bsize
  let t_rsp := s.nic.write_cpu s.min_msg
  let crt := s.data_fs.create false
  let cpu_crt0 := crt.cpuLoad * SECOND
  let t_crt :=
    if bsize < s.max_obj_size then
      if seq then crt.latency / (s.max_obj_size / bsize)
      else crt.latency / 1
    else crt.latency
  let cpu_crt :=
    if bsize < s.max_obj_size ∧ seq then cpu_crt0 / (s.max_obj_size / bsize)
    else cpu_crt0
  let w := s.data_width
  let d := s.write_buf / (w * s.num_disks)
  let sz := s.data_fs.size
  let fw := s.data_fs.write w sz seq false d
  let t_fw := fw.latency * bsize / w
  let t_disk := t_crt + t_fw
  let t_async := fw.cpuLoad * SECOND
  let bw_fs := SECOND * bsize * s.num_disks / t_disk
  let bw_hba := s.num_hbas * s.hba.max_read_bw
  let t_sync := t_dsp + t_rsp + t_cpu
  let cpu_per_op := t_sync + t_async + cpu_crt
  let avail_cores := s.num_cpus * s.cpu.cores * s.cpu.hyperthread
  let bw_cpu := avail_cores * SECOND * bsize / cpu_per_op
  let latency := t_net_w + t_sync
  let bw_base := depth * bsize * SECOND / latency
  let bandwidth := min (min (min (min bw_base bw_n) bw_fs) bw_cpu) bw_hba
  let iops := bandwidth / bsize
  let nic_load := t_net_w * iops / (s.num_nics * SECOND)
  let delay_n := t_net_w * s.nic.queue_length nic_load depth
  let core_load := cpu_per_op * iops / (avail_cores * SECOND)
  let delay_c := cpu_per_op * s.cpu.queue_length core_load depth
  { t_net_r := t_net_r
    t_net_w := t_net_w
    bw_n := bw_n
    t_dsp := t_dsp
    t_cpu := t_cpu
    t_rsp := t_rsp
    t_crt := t_crt
    cpu_crt := cpu_crt
    t_fw := t_fw
    t_disk := t_disk
    t_async := t_async
    bw_fs := bw_fs
    bw_hba := bw_hba
    t_sync := t_sync
    cpu_per_op := cpu_per_op
    avail_cores := avail_cores
    bw_cpu := bw_cpu
    latency := latency
    bw_base := bw_base
    bandwidth := bandwidth
    iops := iops
    q_delay := delay_n + delay_c
    load := { fs := bandwidth / bw_fs
              hba := bandwidth / bw_hba
              net := nic_load
              cpu := core_load } }

/-- The `(latency, bandwidth, load)` triple `Server.write` returns. -/
def Server.write (s : Server) (bsize depth : ℚ) (seq : Bool) :
    ℚ × ℚ × SrvLoad :=
  let r := s.writeCore bsize depth seq
  (r.latency + r.q_delay, r.bandwidth, r.load)

/-- `Server.commit()`: latency of the receive/process/respond round.
The source's `return (latency, bw, load)` names a variable `bw` that is
bound nowhere in the body (a `NameError`, see the crash claim); no
caller consumes that component, and it is modelled as 0 here. -/
def Server.commit (s : Server) : ℚ × ℚ × (ℚ × ℚ) :=
  let t_net_w := s.nic.min_write_latency + s.nic.write_time s.min_msg
  let t_dsp := s.nic.read_cpu s.min_msg
  let t_cpu := s.commit_us
  let t_rsp := s.nic.write_cpu s.min_msg
  let cpu_per_op := t_dsp + t_cpu + t_rsp
  let latency := cpu_per_op + t_net_w
  let iops := SECOND / latency
  let avail_cores := s.num_cpus * s.cpu.cores * s.cpu.hyperthread
  let core_load := cpu_per_op * iops / (avail_cores * SECOND)
  let nic_load := t_net_w * iops / (s.num_nics * SECOND)
  (latency, 0, (core_load, nic_load))

/-- `Server.setattr(cached, depth, sync)`: returns
`(latency, iops, load)` — the second component is an IOPS figure, not a
bandwidth (modelled faithfully). -/
def Server.setattr (s : Server) (cached : ℚ) (sync : Bool) :
    ℚ × ℚ × (ℚ × ℚ) :=
  let t_net_w := s.nic.min_write_latency + s.nic.write_time s.min_msg
  let t_dsp := s.nic.read_cpu s.min_msg
  let t_rsp := s.nic.write_cpu s.min_msg
  let fsg := s.data_fs.getattr
  let t_fsg := fsg.latency * (1 - cached)
  let cpu_fsg := fsg.cpuLoad * SECOND * (1 - cached)
  let fss := s.data_fs.setattr sync
  let t_fss := fss.latency
  let cpu_fss := fss.cpuLoad * SECOND
  let cpu_per_op := t_dsp + cpu_fsg + cpu_fss + t_rsp
  let latency := t_dsp + t_fsg + t_fss + t_rsp + t_net_w
  let iops := SECOND / latency
  let avail_cores := s.num_cpus * s.cpu.cores * s.cpu.hyperthread
  let core_load := cpu_per_op * iops / (avail_cores * SECOND)
  let nic_load := t_net_w * iops / (s.num_nics * SECOND)
  (latency, iops, (core_load, nic_load))

end Model

namespace Model

/-- The distributed-lock-manager model of `Dlm.py` (class `DLM`). -/
structure DLM where
  nic : IFC
  cpu : CPU
  num_nics : ℚ
  num_cpus : ℚ
  min_msg : ℚ
  lock_us : ℚ

/-- `DLM.__init__(nic, cpu, num_nics, num_cpus)`. -/
def DLM.make (nic : IFC) (cpu : CPU) (num_nics num_cpus : ℚ) : DLM :=
  { nic := nic
    cpu := cpu
    num_nics := num_nics
    num_cpus := num_cpus
    min_msg := 128
    lock_us := 1 }

/-- `DLM.lock()`: `(latency, bandwidth, load['cpu'])` of one
uncontested lock acquisition. -/
def DLM.lock (d : DLM) : ℚ × ℚ × ℚ :=
  let t_net_w := d.nic.min_write_latency + d.nic.write_time d.min_msg
  let cpu_msg := d.nic.read_cpu d.min_msg + d.nic.write_cpu d.min_msg
  let cpu_lock := d.lock_us
  let latency := cpu_msg + cpu_lock + t_net_w
  let bw := SECOND / latency
  (latency, bw, (cpu_msg + cpu_lock) / SECOND)

/-- `t_net_r` as computed (and then left unused) by `DLM.lock`. -/
def DLM.t_net_r (d : DLM) : ℚ :=
  d.nic.min_read_latency + d.nic.read_time d.min_msg

/-- `t_net_w` as computed by `DLM.lock`. -/
def DLM.t_net_w (d : DLM) : ℚ :=
  d.nic.min_write_latency + d.nic.write_time d.min_msg

/-- The striping/erasure-coding gateway model of `Gateway.py`
(class `Gateway`). -/
structure Gateway where
  server : Server
  dlm : DLM
  front : IFC
  back : IFC
  cpu : CPU
  num_servers : ℚ
  num_fronts : ℚ
  num_backs : ℚ
  num_cpus : ℚ
  n : ℚ
  m : ℚ
  width : ℚ
  read_ahead : Bool
  min_msg : ℚ
  read_mult : ℚ
  read_mem_x : ℚ
  write_mult : ℚ
  write_mem_x : ℚ

/-- `Gateway.__init__(server, dlm, front_nic, back_nic, cpu, ...)`. -/
def Gateway.make (server : Server) (dlm : DLM) (front back : IFC) (cpu : CPU)
    (num_servers num_front num_back num_cpus n m strip : ℚ) : Gateway :=
  { server := server
    dlm := dlm
    front := front
    back := back
    cpu := cpu
    num_servers := num_servers
    num_fronts := num_front
    num_backs := num_back
    num_cpus := num_cpus
    n := n
    m := m
    width := strip
    read_ahead := true
    min_msg := 128
    read_mult := 2
    read_mem_x := n
    write_mult := 3
    write_mem_x := n + m }

/-- The load report of the gateway operations:
`{server, dlm, front, back, cpu}` utilisations. -/
structure GwLoad where
  server : ℚ
  dlm : ℚ
  front : ℚ
  back : ℚ
  cpu : ℚ

/-- All intermediate quantities of `Gateway.read`.  `t_cpu_pre` is the
value the source variable `t_cpu` holds just before the
"CPU time to process actually process the data" statement reassigns
(`=`, not `+=`) it; `t_cpu` is the value actually used from there on. -/
structure GwRead where
  t_front_r : ℚ
  t_front_w : ℚ
  P_lock : ℚ
  t_lock : ℚ
  bw_dlm : ℚ
  req_per_read : ℚ
  d : ℚ
  s : Bool
  prefetch : ℚ
  t_svr : ℚ
  bw_svr : ℚ
  t_back_r : ℚ
  t_back_w : ℚ
  t_cpu_pre : ℚ
  t_cpu : ℚ
  bw_nf : ℚ
  bw_nb : ℚ
  avail_cores : ℚ
  bw_cpu : ℚ
  latency : ℚ
  bw_base : ℚ
  bandwidth : ℚ
  iops : ℚ
  q_delay : ℚ
  load : GwLoad

/-- `Gateway.read(bsize, depth, seq)`, statement by statement
(`warn` calls omitted; they do not affect the returned values). -/
def Gateway.readCore (g : Gateway) (bsize depth : ℚ) (seq : Bool) : GwRead :=
  let Lfr := g.front.min_read_latency
  let Lfw := g.front.min_write_latency
  let Lbr := g.back.min_read_latency
  let Lbw := g.back.min_write_latency
  let req := g.min_msg
  let rsp := g.min_msg + bsize
  let t_front_r := Lfr + g.front.read_time req
  let t_cpu_a := g.front.read_cpu req
  let P_lock := if seq then bsize / (g.width * g.n) else 1
  let t_back_w0 := P_lock * (Lbw + g.back.write_time req)
  let lk := g.dlm.lock
  let t_lock := P_lock * lk.1
  let t_back_r0 := P_lock * (Lbw + g.back.read_time req)
  let t_cpu_b := t_cpu_a + P_lock * g.back.read_cpu req
    + P_lock * g.back.write_cpu req
  let bw_dlm := bsize * SECOND / t_lock
  let stripe := g.width * g.n
  -- (req_per_read, d, s, prefetch) per the three shapes
  let brch : ℚ × ℚ × Bool × ℚ :=
    if bsize > stripe then (stripe / bsize, depth * bsize / stripe, true, 1)
    else if seq then
      let req_per_read := stripe / bsize
      let d := max 1 (depth / req_per_read)
      if g.read_ahead then (req_per_read, d * 2, seq, 2)
      else (req_per_read, d, seq, 1)
    else (1, depth, seq, 1)
  let req_per_read := brch.1
  let d := brch.2.1
  let s := brch.2.2.1
  let prefetch := brch.2.2.2
  let sv := g.server.read g.width d s
  let t_svr := sv.1 / (prefetch * req_per_read)
  let t_cpu_pre := t_cpu_b + g.n * g.back.write_cpu req / req_per_read
    + g.n * g.back.read_cpu rsp / req_per_read
  let t_back_w := t_back_w0 + g.n * (Lbw + g.back.write_time req) / req_per_read
  let t_back_r := t_back_r0 + g.n * (Lbr + g.back.read_time rsp) / req_per_read
  let bw_svr := sv.2.1 * g.num_servers
  -- the source reassigns (rather than adds to) t_cpu here
  let t_cpu_c := g.read_mult * g.cpu.process bsize
    + g.read_mem_x * g.cpu.mem_read bsize
  let t_front_w := Lfw + g.front.write_time rsp
  let t_cpu := t_cpu_c + g.front.write_cpu rsp
  let bw_nf := g.num_fronts * bsize * SECOND / t_front_w
  let bw_nb := g.num_backs * bsize * SECOND / t_back_r
  let avail_cores := g.num_cpus * g.cpu.cores * g.cpu.hyperthread
  let bw_cpu := avail_cores * bsize * SECOND / t_cpu
  let latency := t_front_w + t_back_w + t_cpu + t_lock + t_svr
  let bw_base := depth * bsize * SECOND / latency
  let bandwidth :=
    min (min (min (min (min bw_base bw_dlm) bw_svr) bw_nf) bw_nb) bw_cpu
  let iops := bandwidth / bsize
  let nic_load_f := t_front_w * iops / (g.num_fronts * SECOND)
  let delay_f := t_front_w * g.front.queue_length nic_load_f depth
  let nic_load_b := t_back_w * iops / (g.num_backs * SECOND)
  let delay_b := t_back_w * g.back.queue_length nic_load_b depth
  let core_load := t_cpu * iops / (avail_cores * SECOND)
  let delay_c := t_cpu * g.cpu.queue_length core_load depth
  { t_front_r := t_front_r
    t_front_w := t_front_w
    P_lock := P_lock
    t_lock := t_lock
    bw_dlm := bw_dlm
    req_per_read := req_per_read
    d := d
    s := s
    prefetch := prefetch
    t_svr := t_svr
    bw_svr := bw_svr
    t_back_r := t_back_r
    t_back_w := t_back_w
    t_cpu_pre := t_cpu_pre
    t_cpu := t_cpu
    bw_nf := bw_nf
    bw_nb := bw_nb
    avail_cores := avail_cores
    bw_cpu := bw_cpu
    latency := latency
    bw_base := bw_base
    bandwidth := bandwidth
    iops := iops
    q_delay := delay_f + delay_b + delay_c
    load := { server := bandwidth / bw_svr
              dlm := bandwidth / bw_dlm
              front := nic_load_f
              back := nic_load_b
              cpu := core_load } }

/-- The `(latency, bandwidth, load)` triple `Gateway.read` returns. -/
def Gateway.read (g : Gateway) (bsize depth : ℚ) (seq : Bool) :
    ℚ × ℚ × GwLoad :=
  let r := g.readCore bsize depth seq
  (r.latency + r.q_delay, r.bandwidth, r.load)

end Model

namespace Model

/-- The quantities produced by the three shape branches of
`Gateway.write` (multi-stripe, aggregated sequential, and
read-modify-write): the server op latencies, the last-assigned server
bandwidth, the back-side message counts, and the extra checksum CPU
cost added only on the read-modify-write path. -/
structure GwWrShape where
  t_s_w : ℚ
  bw_svr0 : ℚ
  t_s_r : ℚ
  t_s_s : ℚ
  reads : ℚ
  writes : ℚ
  commits : ℚ
  setattrs : ℚ
  checksum : ℚ

/-- All intermediate quantities of `Gateway.write`.  `t_cpu_pre` is the
value the source variable `t_cpu` holds just before the
"CPU time to process/check-sum/etc this write" statement reassigns
(`=`, not `+=`) it. -/
structure GwWrite where
  t_front_r : ℚ
  t_front_w : ℚ
  P_lock : ℚ
  t_lock : ℚ
  bw_dlm : ℚ
  shape : GwWrShape
  t_svr : ℚ
  bw_svr : ℚ
  t_back_r : ℚ
  t_back_w : ℚ
  t_cpu_pre : ℚ
  t_cpu : ℚ
  bw_nf : ℚ
  bw_nb : ℚ
  avail_cores : ℚ
  bw_cpu : ℚ
  latency : ℚ
  bw_base : ℚ
  bandwidth : ℚ
  iops : ℚ
  q_delay : ℚ
  load : GwLoad

/-- `Gateway.write(bsize, depth, seq)`, statement by statement
(`warn` calls omitted).  Note that the source derives every one of
`Lfw`/`Lbr`/`Lbw`/`LbR`/`LbW` from the *front* NIC's read side. -/
def Gateway.writeCore (g : Gateway) (bsize depth : ℚ) (seq : Bool) : GwWrite :=
  let small := g.min_msg
  let large := g.min_msg + bsize
  let LfR := g.front.min_read_latency + g.front.read_time large
  let Lfw := g.front.min_read_latency + g.front.read_time small
  let Lbr := g.front.min_read_latency + g.front.read_time small
  let Lbw := g.front.min_read_latency + g.front.read_time small
  let LbR := g.front.min_read_latency + g.front.read_time large
  let LbW := g.front.min_read_latency + g.front.read_time large
  let t_front_r := LfR
  let t_cpu_a := g.front.read_cpu large
  let P_lock := if seq then bsize / (g.width * g.n) else 1
  let t_back_w0 := P_lock * Lbw
  let lk := g.dlm.lock
  let t_lock := P_lock * lk.1
  let t_back_r0 := P_lock * Lbr
  let t_cpu_pre := t_cpu_a + P_lock * g.back.read_cpu small
    + P_lock * g.back.write_cpu small
  let bw_dlm := bsize * SECOND / t_lock
  -- the source reassigns (rather than adds to) t_cpu here
  let t_cpu_b := g.write_mult * g.cpu.process bsize
    + g.write_mem_x * g.cpu.mem_write bsize
  let stripe := g.width * g.n
  let shape : GwWrShape :=
    if bsize > stripe then
      let d := depth * bsize / stripe
      let sw := g.server.write g.width d true
      { t_s_w := sw.1 * (bsize / stripe)
        bw_svr0 := sw.2.1
        t_s_r := 0
        t_s_s := 0
        reads := 0
        writes := (g.n + g.m) * bsize / stripe
        commits := g.n + g.m
        setattrs := 0
        checksum := 0 }
    else if seq then
      let d := max 1 (depth * bsize / stripe)
      let sw := g.server.write g.width d seq
      { t_s_w := sw.1 / (stripe / bsize)
        bw_svr0 := sw.2.1
        t_s_r := 0
        t_s_s := 0
        reads := 0
        writes := g.n + g.m
        commits := g.n + g.m
        setattrs := 0
        checksum := 0 }
    else
      let ss := g.server.setattr 0 false
      let sr := g.server.read g.width depth seq
      let sw := g.server.write g.width depth seq
      { t_s_w := sw.1
        bw_svr0 := sw.2.1
        t_s_r := sr.1
        t_s_s := ss.1
        reads := g.n
        writes := 1 + g.m
        commits := 1 + g.m
        setattrs := g.n - 1
        checksum := (g.n - 1) * g.write_mult * g.cpu.process bsize }
  let t_cpu_c := t_cpu_b + shape.checksum
  let sc := g.server.commit
  let t_s_c := sc.1
  let t_svr := shape.t_s_r + shape.t_s_w + shape.t_s_s + t_s_c
  let bw_svr := shape.bw_svr0 * (g.num_servers * g.n / (g.n + g.m))
  let t_back_w := t_back_w0 + shape.reads * Lbw + shape.writes * LbW
    + shape.commits * Lbw + shape.setattrs * Lbw
  let t_cpu_d := t_cpu_c + shape.reads * g.back.write_cpu small
    + shape.reads * g.back.read_cpu large
    + shape.writes * g.back.write_cpu large
    + shape.writes * g.back.read_cpu small
    + shape.commits * g.back.write_cpu small
    + shape.setattrs * g.back.write_cpu small
  let t_back_r := t_back_r0 + shape.reads * LbR + shape.writes * LbR
  let t_front_w := Lfw
  let t_cpu := t_cpu_d + g.front.write_cpu small
  let bw_nf := g.num_fronts * bsize * SECOND / t_front_r
  let bw_nb := g.num_backs * bsize * SECOND / t_back_w
  let avail_cores := g.num_cpus * g.cpu.cores * g.cpu.hyperthread
  let bw_cpu := avail_cores * bsize * SECOND / t_cpu
  let latency := t_front_w + t_back_w + t_cpu + t_lock + t_svr
  let bw_base := depth * bsize * SECOND / latency
  let bandwidth :=
    min (min (min (min (min bw_base bw_dlm) bw_svr) bw_nf) bw_nb) bw_cpu
  let iops := bandwidth / bsize
  let nic_load_f := t_front_w * iops / (g.num_fronts * SECOND)
  let delay_f := t_front_w * g.front.queue_length nic_load_f depth
  let nic_load_b := t_back_w * iops / (g.num_backs * SECOND)
  let delay_b := t_back_w * g.back.queue_length nic_load_b depth
  let core_load := t_cpu * iops / (avail_cores * SECOND)
  let delay_c := t_cpu * g.cpu.queue_length core_load depth
  { t_front_r := t_front_r
    t_front_w := t_front_w
    P_lock := P_lock
    t_lock := t_lock
    bw_dlm := bw_dlm
    shape := shape
    t_svr := t_svr
    bw_svr := bw_svr
    t_back_r := t_back_r
    t_back_w := t_back_w
    t_cpu_pre := t_cpu_pre
    t_cpu := t_cpu
    bw_nf := bw_nf
    bw_nb := bw_nb
    avail_cores := avail_cores
    bw_cpu := bw_cpu
    latency := latency
    bw_base := bw_base
    bandwidth := bandwidth
    iops := iops
    q_delay := delay_f + delay_b + delay_c
    load := { server := bandwidth / bw_svr
              dlm := bandwidth / bw_dlm
              front := nic_load_f
              back := nic_load_b
              cpu := core_load } }

/-- The `(latency, bandwidth, load)` triple `Gateway.write` returns. -/
def Gateway.write (g : Gateway) (bsize depth : ℚ) (seq : Bool) :
    ℚ × ℚ × GwLoad :=
  let r := g.writeCore bsize depth seq
  (r.latency + r.q_delay, r.bandwidth, r.load)

end Model

namespace Model

/-- The warning accumulator shared by `Server.warn`, `Gateway.warn` and
`DLM.warn` (textually identical in the three classes).  Python's
`warnings.find(msg) < 0` is exactly "`msg` is not a substring of
`warnings`"; strings are modelled as character lists. -/
def warn (warnings msg : List Char) : List Char :=
  if msg <:+: warnings then warnings else warnings ++ msg

/-- Number of positions of `w` at which `msg` occurs as a substring
(counting overlapping occurrences). -/
def occCount (w msg : List Char) : ℕ :=
  ((List.range (w.length + 1)).filter fun i => decide (msg <+: w.drop i)).length

end Model

namespace Dyn

open Model

/-- The attribute names looked up on a `SimCPU.CPU` object by the code
under `src/` (the ones the class defines, plus the two its callers ask
for — `thread_us` and `queue_length`). -/
inductive AttrName
  | cores
  | mhz
  | hyperthread
  | bus_bw
  | mem_bw
  | intr_us
  | disp_us
  | dma_us
  | mem_read
  | mem_write
  | process
  | thread_us
  | queue_length
deriving DecidableEq

/-- A Python attribute: a plain number or a bound method. -/
inductive Attr
  | value (v : ℚ)
  | method1 (f : ℚ → ℚ)

/-- The attribute table a `SimCPU.CPU` instance actually carries, read
off `SimCPU.py`: eight numeric attributes assigned in `__init__`
(`dma_us` among them — a number, not a method) and the three methods
`mem_read`/`mem_write`/`process`.  Neither `thread_us` nor
`queue_length` is defined anywhere in the class. -/
def cpuAttr (c : CPU) : AttrName → Option Attr
  | .cores => some (.value c.cores)
  | .mhz => some (.value c.mhz)
  | .hyperthread => some (.value c.hyperthread)
  | .bus_bw => some (.value c.bus_bw)
  | .mem_bw => some (.value c.mem_bw)
  | .intr_us => some (.value c.intr_us)
  | .disp_us => some (.value c.disp_us)
  | .dma_us => some (.value c.dma_us)
  | .mem_read => some (.method1 c.mem_read)
  | .mem_write => some (.method1 c.mem_write)
  | .process => some (.method1 c.process)
  | .thread_us => none
  | .queue_length => none

/-- The runtime errors the dynamic model can surface: attribute lookup
failure, calling a non-callable (or with the wrong arity), and the use
of a never-bound local name. -/
inductive PyErr
  | attributeError (n : AttrName)
  | typeError (n : AttrName)
  | nameError
deriving DecidableEq

/-- Call a zero-argument method `n` on a CPU object. -/
def call0 (c : CPU) (n : AttrName) : Except PyErr ℚ :=
  match cpuAttr c n with
  | none => .error (.attributeError n)
  | some (.value _) => .error (.typeError n)
  | some (.method1 _) => .error (.typeError n)

/-- Call a one-argument method `n` on a CPU object. -/
def call1 (c : CPU) (n : AttrName) (arg : ℚ) : Except PyErr ℚ :=
  match cpuAttr c n with
  | none => .error (.attributeError n)
  | some (.value _) => .error (.typeError n)
  | some (.method1 f) => .ok (f arg)

/-- Call a two-argument method `n` on a CPU object. -/
def call2 (c : CPU) (n : AttrName) (_ _ : ℚ) : Except PyErr ℚ :=
  match cpuAttr c n with
  | none => .error (.attributeError n)
  | some (.value _) => .error (.typeError n)
  | some (.method1 _) => .error (.typeError n)

/-- `IFC.read_cpu` with the method calls it makes on the CPU object
resolved dynamically: it opens with `self.cpu.dma_us()` and
`self.cpu.thread_us()`. -/
def IFC.read_cpuE (i : IFC) (bytes : ℚ) : Except PyErr ℚ := do
  let d ← call0 i.cpu .dma_us
  let t ← call0 i.cpu .thread_us
  let mr ← call1 i.cpu .mem_read bytes
  let pr ← call1 i.cpu .process bytes
  pure (d + t + i.cpu_per_read + i.mem_read_x * mr + i.cpu_read_x * pr)

/-- `IFC.write_cpu`, dynamically resolved. -/
def IFC.write_cpuE (i : IFC) (bytes : ℚ) : Except PyErr ℚ := do
  let d ← call0 i.cpu .dma_us
  let t ← call0 i.cpu .thread_us
  let mw ← call1 i.cpu .mem_write bytes
  let pr ← call1 i.cpu .process bytes
  pure (d + t + i.cpu_per_write + i.mem_write_x * mw + i.cpu_write_x * pr)

end Dyn

namespace Dyn

open Model

/-- `Server.read` with every method call on the CPU object resolved
dynamically, in source statement order. -/
def Server.readE (s : Server) (bsize depth : ℚ) (seq : Bool) :
    Except PyErr (ℚ × ℚ × SrvLoad) := do
  let t_net_w := s.nic.min_write_latency + s.nic.write_time (s.min_msg + bsize)
  let cm1 ← IFC.read_cpuE s.nic s.min_msg
  let cm2 ← call1 s.cpu .process bsize
  let cm3 ← call1 s.cpu .mem_read bsize
  let cm4 ← IFC.write_cpuE s.nic (s.min_msg + bsize)
  let cpu_msg := cm1 + s.r_cpu_x * cm2 + s.r_mem_x * cm3 + cm4
  let opn := s.data_fs.fsOpen
  let cpu_open0 := opn.cpuLoad * SECOND
  let t_open :=
    if bsize < s.max_obj_size then
      if seq then opn.latency / (s.max_obj_size / bsize)
      else opn.latency / 1
    else opn.latency
  let cpu_open :=
    if bsize < s.max_obj_size ∧ seq then cpu_open0 / (s.max_obj_size / bsize)
    else cpu_open0
  let w := s.data_width
  let sz := s.data_fs.size
  let drs : ℚ × Bool × ℚ :=
    if seq then
      if w ≥ depth * bsize then (max 1 (depth * bsize / w), seq, w / bsize)
      else (depth * bsize / w, seq, w / bsize)
    else
      let disks := min depth s.num_disks
      let d := max 1 (depth / disks)
      if bsize ≤ w then (d, seq, 1)
      else (d * (bsize / w), true, w / bsize)
  let fr := s.data_fs.read w sz drs.2.1 drs.1
  let t_fr := fr.latency / drs.2.2
  let cpu_fs := fr.cpuLoad * SECOND / drs.2.2
  let t_dsk := t_open + t_fr
  let bw_fs := SECOND * bsize * s.num_disks / t_dsk
  let avail_cores := s.num_cpus * s.cpu.cores * s.cpu.hyperthread
  let tot_cpu := cpu_msg + cpu_fs + cpu_open
  let bw_cpu := avail_cores * bsize * SECOND / tot_cpu
  let bw_hba := s.num_hbas * s.hba.max_read_bw
  let latency := cpu_msg + t_open + t_fr + t_net_w
  let bw_base := depth * bsize * SECOND / latency
  let bw_n := s.num_nics * bsize * SECOND / t_net_w
  let bandwidth := min (min (min (min bw_base bw_n) bw_fs) bw_cpu) bw_hba
  let iops := bandwidth / bsize
  let nic_load := t_net_w * iops / (s.num_nics * SECOND)
  let delay_n := t_net_w * s.nic.queue_length nic_load depth
  let core_load := tot_cpu * iops / (avail_cores * SECOND)
  let ql ← call2 s.cpu .queue_length core_load depth
  let delay_c := tot_cpu * ql
  pure (latency + delay_n + delay_c, bandwidth,
    { fs := bandwidth / bw_fs
      hba := bandwidth / bw_hba
      net := nic_load
      cpu := core_load })

/-- `Server.write`, dynamically resolved. -/
def Server.writeE (s : Server) (bsize depth : ℚ) (seq : Bool) :
    Except PyErr (ℚ × ℚ × SrvLoad) := do
  let t_net_r := s.nic.min_read_latency + s.nic.read_time (s.min_msg + bsize)
  let t_net_w := s.nic.min_write_latency + s.nic.write_time s.min_msg
  let bw_n := s.num_nics * bsize * SECOND / t_net_r
  let t_dsp ← IFC.read_cpuE s.nic (s.min_msg + bsize)
  let tc1 ← call1 s.cpu .process bsize
  let tc2 ← call1 s.cpu .mem_write bsize
  let t_cpu := s.w_cpu_x * tc1 + s.w_mem_x * tc2
  let t_rsp ← IFC.write_cpuE s.nic s.min_msg
  let crt := s.data_fs.create false
  let cpu_crt0 := crt.cpuLoad * SECOND
  let t_crt :=
    if bsize < s.max_obj_size then
      if seq then crt.latency / (s.max_obj_size / bsize)
      else crt.latency / 1
    else crt.latency
  let cpu_crt :=
    if bsize < s.max_obj_size ∧ seq then cpu_crt0 / (s.max_obj_size / bsize)
    else cpu_crt0
  let w := s.data_width
  let d := s.write_buf / (w * s.num_disks)
  let fw := s.data_fs.write w s.data_fs.size seq false d
  let t_fw := fw.latency * bsize / w
  let t_disk := t_crt + t_fw
  let t_async := fw.cpuLoad * SECOND
  let bw_fs := SECOND * bsize * s.num_disks / t_disk
  let bw_hba := s.num_hbas * s.hba.max_read_bw
  let t_sync := t_dsp + t_rsp + t_cpu
  let cpu_per_op := t_sync + t_async + cpu_crt
  let avail_cores := s.num_cpus * s.cpu.cores * s.cpu.hyperthread
  let bw_cpu := avail_cores * SECOND * bsize / cpu_per_op
  let latency := t_net_w + t_sync
  let bw_base := depth * bsize * SECOND / latency
  let bandwidth := min (min (min (min bw_base bw_n) bw_fs) bw_cpu) bw_hba
  let iops := bandwidth / bsize
  let nic_load := t_net_w * iops / (s.num_nics * SECOND)
  let delay_n := t_net_w * s.nic.queue_length nic_load depth
  let core_load := cpu_per_op * iops / (avail_cores * SECOND)
  let ql ← call2 s.cpu .queue_length core_load depth
  let delay_c := cpu_per_op * ql
  pure (latency + delay_n + delay_c, bandwidth,
    { fs := bandwidth / bw_fs
      hba := bandwidth / bw_hba
      net := nic_load
      cpu := core_load })

/-- `Server.commit`, dynamically resolved; its `return` statement names
the unbound local `bw`, so even with a repaired CPU model it would end
in a `NameError`. -/
def Server.commitE (s : Server) : Except PyErr (ℚ × ℚ × (ℚ × ℚ)) := do
  let t_net_w := s.nic.min_write_latency + s.nic.write_time s.min_msg
  let t_dsp ← IFC.read_cpuE s.nic s.min_msg
  let t_cpu := s.commit_us
  let t_rsp ← IFC.write_cpuE s.nic s.min_msg
  let cpu_per_op := t_dsp + t_cpu + t_rsp
  let latency := cpu_per_op + t_net_w
  let iops := SECOND / latency
  let avail_cores := s.num_cpus * s.cpu.cores * s.cpu.hyperthread
  let _core_load := cpu_per_op * iops / (avail_cores * SECOND)
  let _nic_load := t_net_w * iops / (s.num_nics * SECOND)
  Except.error PyErr.nameError

/-- `Server.setattr`, dynamically resolved. -/
def Server.setattrE (s : Server) (cached : ℚ) (sync : Bool) :
    Except PyErr (ℚ × ℚ × (ℚ × ℚ)) := do
  let t_net_w := s.nic.min_write_latency + s.nic.write_time s.min_msg
  let t_dsp ← IFC.read_cpuE s.nic s.min_msg
  let t_rsp ← IFC.write_cpuE s.nic s.min_msg
  let fsg := s.data_fs.getattr
  let t_fsg := fsg.latency * (1 - cached)
  let cpu_fsg := fsg.cpuLoad * SECOND * (1 - cached)
  let fss := s.data_fs.setattr sync
  let cpu_fss := fss.cpuLoad * SECOND
  let cpu_per_op := t_dsp + cpu_fsg + cpu_fss + t_rsp
  let latency := t_dsp + t_fsg + fss.latency + t_rsp + t_net_w
  let iops := SECOND / latency
  let avail_cores := s.num_cpus * s.cpu.cores * s.cpu.hyperthread
  let core_load := cpu_per_op * iops / (avail_cores * SECOND)
  let nic_load := t_net_w * iops / (s.num_nics * SECOND)
  pure (latency, iops, (core_load, nic_load))

/-- `DLM.lock`, dynamically resolved. -/
def DLM.lockE (d : DLM) : Except PyErr (ℚ × ℚ × ℚ) := do
  let t_net_w := d.nic.min_write_latency + d.nic.write_time d.min_msg
  let c1 ← IFC.read_cpuE d.nic d.min_msg
  let cpu_lock := d.lock_us
  let c2 ← IFC.write_cpuE d.nic d.min_msg
  let cpu_msg := c1 + c2
  let latency := cpu_msg + cpu_lock + t_net_w
  pure (latency, SECOND / latency, (cpu_msg + cpu_lock) / SECOND)

end Dyn

namespace Dyn

open Model

/-- `Gateway.read`, dynamically resolved, in source statement order. -/
def Gateway.readE (g : Gateway) (bsize depth : ℚ) (seq : Bool) :
    Except PyErr (ℚ × ℚ × GwLoad) := do
  let Lfr := g.front.min_read_latency
  let Lfw := g.front.min_write_latency
  let Lbr := g.back.min_read_latency
  let Lbw := g.back.min_write_latency
  let req := g.min_msg
  let rsp := g.min_msg + bsize
  let _t_front_r := Lfr + g.front.read_time req
  let tc_a ← IFC.read_cpuE g.front req
  let P_lock := if seq then bsize / (g.width * g.n) else 1
  let t_back_w0 := P_lock * (Lbw + g.back.write_time req)
  let lk ← DLM.lockE g.dlm
  let t_lock := P_lock * lk.1
  let t_back_r0 := P_lock * (Lbw + g.back.read_time req)
  let tc_b ← IFC.read_cpuE g.back req
  let tc_c ← IFC.write_cpuE g.back req
  let _t_cpu1 := tc_a + P_lock * tc_b + P_lock * tc_c
  let bw_dlm := bsize * SECOND / t_lock
  let stripe := g.width * g.n
  let brch : ℚ × ℚ × Bool × ℚ :=
    if bsize > stripe then (stripe / bsize, depth * bsize / stripe, true, 1)
    else if seq then
      let req_per_read := stripe / bsize
      let d := max 1 (depth / req_per_read)
      if g.read_ahead then (req_per_read, d * 2, seq, 2)
      else (req_per_read, d, seq, 1)
    else (1, depth, seq, 1)
  let req_per_read := brch.1
  let sv ← Server.readE g.server g.width brch.2.1 brch.2.2.1
  let t_svr := sv.1 / (brch.2.2.2 * req_per_read)
  let tc_d ← IFC.write_cpuE g.back req
  let tc_e ← IFC.read_cpuE g.back rsp
  let _t_cpu2 := _t_cpu1 + g.n * tc_d / req_per_read + g.n * tc_e / req_per_read
  let t_back_w := t_back_w0 + g.n * (Lbw + g.back.write_time req) / req_per_read
  let t_back_r := t_back_r0 + g.n * (Lbr + g.back.read_time rsp) / req_per_read
  let bw_svr := sv.2.1 * g.num_servers
  let tp ← call1 g.cpu .process bsize
  let tm ← call1 g.cpu .mem_read bsize
  let t_cpu_c := g.read_mult * tp + g.read_mem_x * tm
  let t_front_w := Lfw + g.front.write_time rsp
  let tf ← IFC.write_cpuE g.front rsp
  let t_cpu := t_cpu_c + tf
  let bw_nf := g.num_fronts * bsize * SECOND / t_front_w
  let bw_nb := g.num_backs * bsize * SECOND / t_back_r
  let avail_cores := g.num_cpus * g.cpu.cores * g.cpu.hyperthread
  let bw_cpu := avail_cores * bsize * SECOND / t_cpu
  let latency := t_front_w + t_back_w + t_cpu + t_lock + t_svr
  let bw_base := depth * bsize * SECOND / latency
  let bandwidth :=
    min (min (min (min (min bw_base bw_dlm) bw_svr) bw_nf) bw_nb) bw_cpu
  let iops := bandwidth / bsize
  let nic_load_f := t_front_w * iops / (g.num_fronts * SECOND)
  let delay_f := t_front_w * g.front.queue_length nic_load_f depth
  let nic_load_b := t_back_w * iops / (g.num_backs * SECOND)
  let delay_b := t_back_w * g.back.queue_length nic_load_b depth
  let core_load := t_cpu * iops / (avail_cores * SECOND)
  let ql ← call2 g.cpu .queue_length core_load depth
  let delay_c := t_cpu * ql
  pure (latency + delay_f + delay_b + delay_c, bandwidth,
    { server := bandwidth / bw_svr
      dlm := bandwidth / bw_dlm
      front := nic_load_f
      back := nic_load_b
      cpu := core_load })

/-- `Gateway.write`, dynamically resolved, in source statement order. -/
def Gateway.writeE (g : Gateway) (bsize depth : ℚ) (seq : Bool) :
    Except PyErr (ℚ × ℚ × GwLoad) := do
  let small := g.min_msg
  let large := g.min_msg + bsize
  let LfR := g.front.min_read_latency + g.front.read_time large
  let Lfw := g.front.min_read_latency + g.front.read_time small
  let Lbr := g.front.min_read_latency + g.front.read_time small
  let Lbw := g.front.min_read_latency + g.front.read_time small
  let LbR := g.front.min_read_latency + g.front.read_time large
  let LbW := g.front.min_read_latency + g.front.read_time large
  let t_front_r := LfR
  let _tc_a ← IFC.read_cpuE g.front large
  let P_lock := if seq then bsize / (g.width * g.n) else 1
  let t_back_w0 := P_lock * Lbw
  let lk ← DLM.lockE g.dlm
  let t_lock := P_lock * lk.1
  let t_back_r0 := P_lock * Lbr
  let _tc_b ← IFC.read_cpuE g.back small
  let _tc_c ← IFC.write_cpuE g.back small
  let bw_dlm := bsize * SECOND / t_lock
  let tp ← call1 g.cpu .process bsize
  let tm ← call1 g.cpu .mem_write bsize
  let t_cpu_b := g.write_mult * tp + g.write_mem_x * tm
  let stripe := g.width * g.n
  let shape ←
    if bsize > stripe then do
      let d := depth * bsize / stripe
      let sw ← Server.writeE g.server g.width d true
      pure { t_s_w := sw.1 * (bsize / stripe)
             bw_svr0 := sw.2.1
             t_s_r := 0
             t_s_s := 0
             reads := 0
             writes := (g.n + g.m) * bsize / stripe
             commits := g.n + g.m
             setattrs := 0
             checksum := (0 : ℚ) }
    else if seq then do
      let d := max 1 (depth * bsize / stripe)
      let sw ← Server.writeE g.server g.width d seq
      pure { t_s_w := sw.1 / (stripe / bsize)
             bw_svr0 := sw.2.1
             t_s_r := 0
             t_s_s := 0
             reads := 0
             writes := g.n + g.m
             commits := g.n + g.m
             setattrs := 0
             checksum := (0 : ℚ) }
    else do
      let ss ← Server.setattrE g.server 0 false
      let sr ← Server.readE g.server g.width depth seq
      let sw ← Server.writeE g.server g.width depth seq
      let ck ← call1 g.cpu .process bsize
      pure ({ t_s_w := sw.1
              bw_svr0 := sw.2.1
              t_s_r := sr.1
              t_s_s := ss.1
              reads := g.n
              writes := 1 + g.m
              commits := 1 + g.m
              setattrs := g.n - 1
              checksum := (g.n - 1) * g.write_mult * ck } : GwWrShape)
  let t_cpu_c := t_cpu_b + shape.checksum
  let sc ← Server.commitE g.server
  let t_svr := shape.t_s_r + shape.t_s_w + shape.t_s_s + sc.1
  let bw_svr := shape.bw_svr0 * (g.num_servers * g.n / (g.n + g.m))
  let t_back_w := t_back_w0 + shape.reads * Lbw + shape.writes * LbW
    + shape.commits * Lbw + shape.setattrs * Lbw
  let c1 ← IFC.write_cpuE g.back small
  let c2 ← IFC.read_cpuE g.back large
  let c3 ← IFC.write_cpuE g.back large
  let c4 ← IFC.read_cpuE g.back small
  let c5 ← IFC.write_cpuE g.back small
  let c6 ← IFC.write_cpuE g.back small
  let t_cpu_d := t_cpu_c + shape.reads * c1 + shape.reads * c2
    + shape.writes * c3 + shape.writes * c4
    + shape.commits * c5 + shape.setattrs * c6
  let _t_back_r := t_back_r0 + shape.reads * LbR + shape.writes * LbR
  let t_front_w := Lfw
  let c7 ← IFC.write_cpuE g.front small
  let t_cpu := t_cpu_d + c7
  let bw_nf := g.num_fronts * bsize * SECOND / t_front_r
  let bw_nb := g.num_backs * bsize * SECOND / t_back_w
  let avail_cores := g.num_cpus * g.cpu.cores * g.cpu.hyperthread
  let bw_cpu := avail_cores * bsize * SECOND / t_cpu
  let latency := t_front_w + t_back_w + t_cpu + t_lock + t_svr
  let bw_base := depth * bsize * SECOND / latency
  let bandwidth :=
    min (min (min (min (min bw_base bw_dlm) bw_svr) bw_nf) bw_nb) bw_cpu
  let iops := bandwidth / bsize
  let nic_load_f := t_front_w * iops / (g.num_fronts * SECOND)
  let delay_f := t_front_w * g.front.queue_length nic_load_f depth
  let nic_load_b := t_back_w * iops / (g.num_backs * SECOND)
  let delay_b := t_back_w * g.back.queue_length nic_load_b depth
  let core_load := t_cpu * iops / (avail_cores * SECOND)
  let ql ← call2 g.cpu .queue_length core_load depth
  let delay_c := t_cpu * ql
  pure (latency + delay_f + delay_b + delay_c, bandwidth,
    { server := bandwidth / bw_svr
      dlm := bandwidth / bw_dlm
      front := nic_load_f
      back := nic_load_b
      cpu := core_load })

end Dyn

namespace Model

/-- The default processor: `SimCPU.CPU("generic")` — 1 core, 3 GHz,
DDR-1600. -/
def defaultCPU : CPU := CPU.make 1 (3 * GIG) (1600 * MEG)

/-- The default NIC: `SimIFC.NIC(...)` at 10 Gb/s. -/
def defaultNIC : IFC := NIC.make (10 * GIG) defaultCPU

/-- The default HBA: `SimIFC.HBA(...)` at 16 Gb/s. -/
def defaultHBA : IFC := HBA.make (16 * GIG) defaultCPU

/-- The default disk: `Disk(rpm=7200, size=2*TERA, bw=150*MEG,
heads=10)`. -/
def defaultDisk : Disk := Disk.make 7200 (2 * TERA) (150 * MEG) 10

/-- The default SSD: `SSD(20*GIG, bw=200*MEG, iops=20000, streams=1)`. -/
def defaultSSD : SSD := SSD.make (20 * GIG) (200 * MEG) 20000 1

/-- Modelled from the spec: a concrete reference instantiation of the
(missing) file-system component, used only to instantiate witnesses and
counterexamples — fixed positive service times and CPU-load fractions
of realistic magnitude for a local file system on a disk. -/
def refFS : SimFS :=
  { size := 2 * TERA
    fsOpen := { latency := 200, bw := 0, cpuLoad := 1/10000 }
    read := fun _ _ _ _ => { latency := 1000, bw := 0, cpuLoad := 1/10000 }
    write := fun _ _ _ _ _ => { latency := 1000, bw := 0, cpuLoad := 1/10000 }
    create := fun _ => { latency := 500, bw := 0, cpuLoad := 1/10000 }
    getattr := { latency := 100, bw := 0, cpuLoad := 1/100000 }
    setattr := fun _ => { latency := 100, bw := 0, cpuLoad := 1/100000 } }

/-- The reference server: default components, one of each. -/
def refServer : Server :=
  Server.make refFS defaultNIC defaultHBA defaultCPU 1 1 1 1 (32 * MB)

/-- The reference DLM: default NIC and CPU (the defaults `makeDLM({})`
falls back to). -/
def refDLM : DLM := DLM.make defaultNIC defaultCPU 1 1

/-- The reference gateway: default components and the default erasure
geometry `n=5, m=2, strip=128*KB`. -/
def refGateway : Gateway :=
  Gateway.make refServer refDLM defaultNIC defaultNIC defaultCPU
    1 1 1 1 5 2 (128 * KB)

end Model

namespace Claims

open Model

/-- C9, counterexample: the claim asserts that `CPU.process(bytes)`
returns `bytes * SECOND / min(bus_bw, mem_bw)`; on the default
processor (3 GHz, DDR-1600, where `mem_bw < bus_bw`) already one byte
is processed in `SECOND/bus_bw`, not `SECOND/min(bus_bw, mem_bw)`. -/
theorem C9_process_not_min :
    defaultCPU.process 1 ≠ 1 * SECOND / min defaultCPU.bus_bw defaultCPU.mem_bw := by
  norm_num [defaultCPU, CPU.make, CPU.process, GIG, MEG, MB, SECOND]

/-- C9, amended: `mem_read` and `mem_write` are linear in `bytes` at
the limiting rate `min(bus_bw, mem_bw)`, but `process` is linear at
the bus rate `bus_bw` alone (additivity witnesses the linearity). -/
theorem C9_cpu_rates (c : CPU) (x y : ℚ) :
    c.mem_read x = x * SECOND / min c.bus_bw c.mem_bw
      ∧ c.mem_write x = x * SECOND / min c.bus_bw c.mem_bw
      ∧ c.process x = x * SECOND / c.bus_bw
      ∧ c.mem_read (x + y) = c.mem_read x + c.mem_read y
      ∧ c.mem_write (x + y) = c.mem_write x + c.mem_write y
      ∧ c.process (x + y) = c.process x + c.process y := by
  refine ⟨rfl, rfl, rfl, ?_, ?_, ?_⟩ <;>
    simp [CPU.mem_read, CPU.mem_write, CPU.process, add_mul, add_div]

/-- C4, counterexample: the claim asserts that for `rho ∈ [0,1)` the
queue length lies in `[0, max_depth)` and is strictly increasing; at
`max_depth = 1` the cap is already reached at `rho = 1/2`
(`rho/(1-rho) = 1 ≥ max_depth`), so the value equals `max_depth`
(not `< max_depth`) and stays constant up to `rho = 2/3`. -/
theorem C4_cap_violates_claim :
    (0 : ℚ) < 1 ∧ (0 : ℚ) ≤ 1/2 ∧ (1/2 : ℚ) < 1
      ∧ ¬ queueLength (1/2) 1 < 1
      ∧ (1/2 : ℚ) < 2/3
      ∧ queueLength (1/2) 1 = queueLength (2/3) 1 := by
  norm_num [queueLength]

/-- C4, amended: `queue_length(rho, max_depth)` returns `max_depth`
for `rho ≥ 1`; for `rho ∈ [0,1)` it returns
`min(rho/(1-rho), max_depth)`, which lies in `[0, max_depth]`, is
non-decreasing in `rho`, and is strictly increasing as long as the cap
`max_depth` has not been reached. -/
theorem C4_queue_length (maxd rho r1 r2 : ℚ) (hmax : 0 < maxd) :
    (1 ≤ rho → queueLength rho maxd = maxd)
      ∧ (0 ≤ rho → rho < 1 →
          queueLength rho maxd = min (rho / (1 - rho)) maxd
            ∧ 0 ≤ queueLength rho maxd ∧ queueLength rho maxd ≤ maxd)
      ∧ (0 ≤ r1 → r1 ≤ r2 → r2 < 1 →
          queueLength r1 maxd ≤ queueLength r2 maxd)
      ∧ (0 ≤ r1 → r1 < r2 → r2 < 1 → r2 / (1 - r2) < maxd →
          queueLength r1 maxd < queueLength r2 maxd) := by
  have key : ∀ a b : ℚ, 0 ≤ a → a ≤ b → b < 1 → a / (1 - a) ≤ b / (1 - b) := by
    intro a b ha hab hb1
    have h1a : 0 < 1 - a := by linarith
    have h1b : 0 < 1 - b := by linarith
    rw [div_le_div_iff₀ h1a h1b]
    nlinarith
  have keys : ∀ a b : ℚ, 0 ≤ a → a < b → b < 1 → a / (1 - a) < b / (1 - b) := by
    intro a b ha hab hb1
    have h1a : 0 < 1 - a := by linarith
    have h1b : 0 < 1 - b := by linarith
    rw [div_lt_div_iff₀ h1a h1b]
    nlinarith
  refine ⟨fun h => if_pos h, fun h0 h1 => ?_, fun h0 h12 h21 => ?_, fun h0 h12 h21 hcap => ?_⟩
  · have hlt : ¬ 1 ≤ rho := not_le.mpr h1
    have h1r : 0 < 1 - rho := by linarith
    have hnn : 0 ≤ rho / (1 - rho) := div_nonneg h0 h1r.le
    constructor
    · simp only [queueLength, if_neg hlt]
      rcases lt_or_ge (rho / (1 - rho)) maxd with h | h
      · rw [if_pos h, min_eq_left h.le]
      · rw [if_neg (not_lt.mpr h), min_eq_right h]
    · simp only [queueLength, if_neg hlt]
      rcases lt_or_ge (rho / (1 - rho)) maxd with h | h
      · rw [if_pos h]; exact ⟨hnn, h.le⟩
      · rw [if_neg (not_lt.mpr h)]; exact ⟨hmax.le, le_refl _⟩
  · have l1 : ¬ 1 ≤ r1 := by intro h; linarith
    have l2 : ¬ 1 ≤ r2 := not_le.mpr h21
    simp only [queueLength, if_neg l1, if_neg l2]
    have hmono := key r1 r2 h0 h12 h21
    rcases lt_or_ge (r1 / (1 - r1)) maxd with ha | ha <;>
      rcases lt_or_ge (r2 / (1 - r2)) maxd with hb | hb
    · rw [if_pos ha, if_pos hb]; exact hmono
    · rw [if_pos ha, if_neg (not_lt.mpr hb)]; exact ha.le
    · rw [if_neg (not_lt.mpr ha), if_pos hb]; linarith
    · rw [if_neg (not_lt.mpr ha), if_neg (not_lt.mpr hb)]
  · have l1 : ¬ 1 ≤ r1 := by intro h; linarith
    have l2 : ¬ 1 ≤ r2 := not_le.mpr h21
    have hmono := keys r1 r2 h0 h12 h21
    have ha : r1 / (1 - r1) < maxd := lt_trans hmono hcap
    simp only [queueLength, if_neg l1, if_neg l2, if_pos ha, if_pos hcap]
    exact hmono

/-- C4, witness. -/
theorem C4_queue_length_witness :
    (0 : ℚ) < 1000
      ∧ (queueLength (1/2) 1000 = min ((1/2 : ℚ) / (1 - 1/2)) 1000
          ∧ 0 ≤ queueLength (1/2) 1000 ∧ queueLength (1/2) 1000 ≤ 1000)
      ∧ queueLength (1/4) 1000 < queueLength (1/2) 1000 := by
  have h := C4_queue_length 1000 (1/2) (1/4) (1/2) (by norm_num)
  refine ⟨by norm_num, h.2.1 (by norm_num) (by norm_num), ?_⟩
  exact h.2.2.2 (by norm_num) (by norm_num) (by norm_num) (by norm_num)

/-- C6: on the default instantiation (`makeDLM({})`: generic 3 GHz
CPU, 10 Gb/s NIC), the lock latency is at least one minimum-message
round trip (`t_net_r + t_net_w` as the source computes them) plus the
1 µs lock-processing constant, and the returned bandwidth is exactly
`SECOND / latency`. -/
theorem C6_dlm_lock :
    (refDLM.lock.1 ≥ refDLM.t_net_r + refDLM.t_net_w + 1)
      ∧ refDLM.lock.2.1 = SECOND / refDLM.lock.1 := by
  constructor
  · norm_num [refDLM, DLM.make, DLM.lock, DLM.t_net_r, DLM.t_net_w,
      defaultNIC, defaultCPU, NIC.make, CPU.make, IFC.read_time, IFC.write_time,
      IFC.read_cpu, IFC.write_cpu, CPU.process, CPU.mem_read, CPU.mem_write,
      GIG, MEG, MB, SECOND]
  · rfl

/-- C7: `Disk.avgTime` clamps the queue depth at `nr_requests` — any
requested depth beyond it yields exactly the `nr_requests` result —
and `SSD.avgTime` divides its per-operation setup cost
`SECOND/max_iops` by `min(depth, streams)` (`nr_requests` holds the
stream count on an SSD). -/
theorem C7_depth_clamp (d : Disk) (s : SSD) (bsize fsize depth : ℚ)
    (read seq : Bool) (h : depth > d.nr_requests) :
    d.avgTime bsize fsize read seq depth = d.avgTime bsize fsize read seq d.nr_requests
      ∧ s.avgTime bsize fsize read seq depth =
          (SECOND / s.max_iops) / min depth s.nr_requests
            + (if read then s.xferTime bsize read
               else s.xferTime bsize read * s.write_penalty) := by
  constructor
  · have hn : ¬ d.nr_requests > d.nr_requests := lt_irrefl _
    simp only [Disk.avgTime, if_pos h, if_neg hn]
  · simp only [SSD.avgTime]
    rcases lt_or_ge depth s.nr_requests with hd | hd
    · rw [if_pos hd, min_eq_left hd.le]
    · rw [if_neg (not_lt.mpr hd), min_eq_right hd]

/-- C7, witness: the default disk (`nr_requests = 128`) at depth 200,
and the default SSD (one stream) at depth 200. -/
theorem C7_depth_clamp_witness :
    (200 : ℚ) > defaultDisk.nr_requests
      ∧ defaultDisk.avgTime 4096 (16 * GIG) true true 200 =
          defaultDisk.avgTime 4096 (16 * GIG) true true defaultDisk.nr_requests
      ∧ defaultSSD.avgTime 4096 (16 * GIG) true true 200 =
          (SECOND / defaultSSD.max_iops) / min 200 defaultSSD.nr_requests
            + defaultSSD.xferTime 4096 true := by
  have hgt : (200 : ℚ) > defaultDisk.nr_requests := by
    norm_num [defaultDisk, Disk.make]
  have h := C7_depth_clamp defaultDisk defaultSSD 4096 (16 * GIG) 200 true true hgt
  exact ⟨hgt, h.1, by rw [h.2]; simp⟩

end Claims

namespace Claims

open Model

/-- C10: the warning accumulator deduplicates by substring match and
never removes text — after two `warn` calls with the same (non-empty)
message the accumulated text holds exactly one occurrence of it when
starting from a fresh accumulator; in general the second identical
call is a no-op and every call keeps the old text as a prefix. -/
theorem C10_warn_dedup (w msg : List Char) (hne : msg ≠ []) :
    occCount (warn (warn [] msg) msg) msg = 1
      ∧ warn (warn w msg) msg = warn w msg
      ∧ w <+: warn w msg := by
  have hsub : ∀ v : List Char, msg <:+: warn v msg := by
    intro v
    unfold warn
    by_cases h : msg <:+: v
    · rw [if_pos h]; exact h
    · rw [if_neg h]
      exact ⟨v, [], by simp⟩
  have hsnd : warn (warn w msg) msg = warn w msg := by
    unfold warn
    rw [if_pos]
    exact hsub w
  refine ⟨?_, hsnd, ?_⟩
  · have h0 : warn [] msg = msg := by
      unfold warn
      rw [if_neg]
      · simp
      · intro h
        exact hne (List.eq_nil_of_infix_nil h)
    have h1 : warn (warn [] msg) msg = msg := by
      rw [h0]
      unfold warn
      rw [if_pos (List.infix_refl msg)]
    rw [h1]
    unfold occCount
    have hlen : 0 < msg.length := List.length_pos.mpr hne
    have hfilter :
        (List.range (msg.length + 1)).filter (fun i => decide (msg <+: msg.drop i))
          = [0] := by
      have hr : List.range (msg.length + 1) = 0 :: (List.range msg.length).map Nat.succ := by
        rw [List.range_succ_eq_map]
      rw [hr]
      have h00 : (decide (msg <+: msg.drop 0) = true) := by simp
      rw [List.filter_cons, if_pos h00]
      congr 1
      rw [List.filter_eq_nil_iff]
      intro a ha
      simp only [List.mem_map, List.mem_range] at ha
      obtain ⟨i, _, rfl⟩ := ha
      simp only [decide_eq_true_eq]
      intro hpre
      have hle := hpre.length_le
      rw [List.length_drop] at hle
      omega
    rw [hfilter]
    rfl
  · unfold warn
    by_cases h : msg <:+: w
    · rw [if_pos h]
    · rw [if_neg h]
      exact List.prefix_append w msg

/-- C10, witness. -/
theorem C10_warn_dedup_witness :
    occCount (warn (warn [] [Char.ofNat 97]) [Char.ofNat 97]) [Char.ofNat 97] = 1
      ∧ warn (warn [Char.ofNat 98] [Char.ofNat 97]) [Char.ofNat 97]
          = warn [Char.ofNat 98] [Char.ofNat 97]
      ∧ [Char.ofNat 98] <+: warn [Char.ofNat 98] [Char.ofNat 97] := by
  have h1 := C10_warn_dedup [Char.ofNat 98] [Char.ofNat 97] (by simp)
  exact ⟨h1.1, h1.2.1, h1.2.2⟩

end Claims

namespace Claims

open Model

/-- Each of a five-way `min` is an upper bound of it. -/
theorem min5_le (a b c d e : ℚ) :
    min (min (min (min a b) c) d) e ≤ a
      ∧ min (min (min (min a b) c) d) e ≤ b
      ∧ min (min (min (min a b) c) d) e ≤ c
      ∧ min (min (min (min a b) c) d) e ≤ d
      ∧ min (min (min (min a b) c) d) e ≤ e := by
  refine ⟨?_, ?_, ?_, ?_, ?_⟩ <;> simp [min_le_iff]

/-- Each of a six-way `min` is an upper bound of it. -/
theorem min6_le (a b c d e f : ℚ) :
    min (min (min (min (min a b) c) d) e) f ≤ a
      ∧ min (min (min (min (min a b) c) d) e) f ≤ b
      ∧ min (min (min (min (min a b) c) d) e) f ≤ c
      ∧ min (min (min (min (min a b) c) d) e) f ≤ d
      ∧ min (min (min (min (min a b) c) d) e) f ≤ e
      ∧ min (min (min (min (min a b) c) d) e) f ≤ f := by
  refine ⟨?_, ?_, ?_, ?_, ?_, ?_⟩ <;> simp [min_le_iff]

/-- C1: the bandwidth returned by `Server.read`, `Server.write`,
`Gateway.read` and `Gateway.write` is exactly the minimum of the
individually computed per-resource ceilings (the depth-scaled base
bandwidth, network, filesystem/disk, CPU and HBA ceilings for the
server; base, DLM, server, front-NIC, back-NIC and CPU ceilings for
the gateway), and hence never exceeds any individual ceiling. -/
theorem C1_bandwidth_min (s : Server) (g : Gateway) (bsize depth : ℚ)
    (seq : Bool) :
    ((s.read bsize depth seq).2.1 =
        min (min (min (min (s.readCore bsize depth seq).bw_base
              (s.readCore bsize depth seq).bw_n)
            (s.readCore bsize depth seq).bw_fs)
          (s.readCore bsize depth seq).bw_cpu)
        (s.readCore bsize depth seq).bw_hba
      ∧ (s.read bsize depth seq).2.1 ≤ (s.readCore bsize depth seq).bw_base
      ∧ (s.read bsize depth seq).2.1 ≤ (s.readCore bsize depth seq).bw_n
      ∧ (s.read bsize depth seq).2.1 ≤ (s.readCore bsize depth seq).bw_fs
      ∧ (s.read bsize depth seq).2.1 ≤ (s.readCore bsize depth seq).bw_cpu
      ∧ (s.read bsize depth seq).2.1 ≤ (s.readCore bsize depth seq).bw_hba)
    ∧ ((s.write bsize depth seq).2.1 =
        min (min (min (min (s.writeCore bsize depth seq).bw_base
              (s.writeCore bsize depth seq).bw_n)
            (s.writeCore bsize depth seq).bw_fs)
          (s.writeCore bsize depth seq).bw_cpu)
        (s.writeCore bsize depth seq).bw_hba
      ∧ (s.write bsize depth seq).2.1 ≤ (s.writeCore bsize depth seq).bw_base
      ∧ (s.write bsize depth seq).2.1 ≤ (s.writeCore bsize depth seq).bw_n
      ∧ (s.write bsize depth seq).2.1 ≤ (s.writeCore bsize depth seq).bw_fs
      ∧ (s.write bsize depth seq).2.1 ≤ (s.writeCore bsize depth seq).bw_cpu
      ∧ (s.write bsize depth seq).2.1 ≤ (s.writeCore bsize depth seq).bw_hba)
    ∧ ((g.read bsize depth seq).2.1 =
        min (min (min (min (min (g.readCore bsize depth seq).bw_base
                (g.readCore bsize depth seq).bw_dlm)
              (g.readCore bsize depth seq).bw_svr)
            (g.readCore bsize depth seq).bw_nf)
          (g.readCore bsize depth seq).bw_nb)
        (g.readCore bsize depth seq).bw_cpu
      ∧ (g.read bsize depth seq).2.1 ≤ (g.readCore bsize depth seq).bw_base
      ∧ (g.read bsize depth seq).2.1 ≤ (g.readCore bsize depth seq).bw_dlm
      ∧ (g.read bsize depth seq).2.1 ≤ (g.readCore bsize depth seq).bw_svr
      ∧ (g.read bsize depth seq).2.1 ≤ (g.readCore bsize depth seq).bw_nf
      ∧ (g.read bsize depth seq).2.1 ≤ (g.readCore bsize depth seq).bw_nb
      ∧ (g.read bsize depth seq).2.1 ≤ (g.readCore bsize depth seq).bw_cpu)
    ∧ ((g.write bsize depth seq).2.1 =
        min (min (min (min (min (g.writeCore bsize depth seq).bw_base
                (g.writeCore bsize depth seq).bw_dlm)
              (g.writeCore bsize depth seq).bw_svr)
            (g.writeCore bsize depth seq).bw_nf)
          (g.writeCore bsize depth seq).bw_nb)
        (g.writeCore bsize depth seq).bw_cpu
      ∧ (g.write bsize depth seq).2.1 ≤ (g.writeCore bsize depth seq).bw_base
      ∧ (g.write bsize depth seq).2.1 ≤ (g.writeCore bsize depth seq).bw_dlm
      ∧ (g.write bsize depth seq).2.1 ≤ (g.writeCore bsize depth seq).bw_svr
      ∧ (g.write bsize depth seq).2.1 ≤ (g.writeCore bsize depth seq).bw_nf
      ∧ (g.write bsize depth seq).2.1 ≤ (g.writeCore bsize depth seq).bw_nb
      ∧ (g.write bsize depth seq).2.1 ≤ (g.writeCore bsize depth seq).bw_cpu) := by
  refine ⟨⟨rfl, ?_⟩, ⟨rfl, ?_⟩, ⟨rfl, ?_⟩, ⟨rfl, ?_⟩⟩
  · exact min5_le _ _ _ _ _
  · exact min5_le _ _ _ _ _
  · exact min6_le _ _ _ _ _ _
  · exact min6_le _ _ _ _ _ _

end Claims

namespace Claims

open Model

/-- C3: with method calls on the `SimCPU.CPU` object resolved against
the attribute table that class actually defines, every public
estimation operation fails for every input: the first thing each one
does on its cost path is `IFC.read_cpu`, whose opening
`self.cpu.dma_us()` calls a plain numeric attribute
(a `TypeError` — and `thread_us`/`queue_length` do not exist at all,
and `Server.commit` would go on to return the never-bound name `bw`).
None of `Server.read`, `Server.write`, `Server.commit`, `DLM.lock`,
`Gateway.read`, `Gateway.write` returns a `(latency, bandwidth, load)`
triple. -/
theorem C3_operations_raise (s : Server) (d : DLM) (g : Gateway)
    (bsize depth : ℚ) (seq : Bool) :
    Dyn.Server.readE s bsize depth seq = .error (.typeError .dma_us)
      ∧ Dyn.Server.writeE s bsize depth seq = .error (.typeError .dma_us)
      ∧ Dyn.Server.commitE s = .error (.typeError .dma_us)
      ∧ Dyn.DLM.lockE d = .error (.typeError .dma_us)
      ∧ Dyn.Gateway.readE g bsize depth seq = .error (.typeError .dma_us)
      ∧ Dyn.Gateway.writeE g bsize depth seq = .error (.typeError .dma_us) := by
  exact ⟨rfl, rfl, rfl, rfl, rfl, rfl⟩

end Claims

namespace Model

/-- The value `Gateway.read` accumulates into `t_cpu` before the
data-processing statement reassigns it: front request processing, the
lock messages, and the per-shard back-side send/receive costs. -/
theorem Gateway.readCore_t_cpu_pre (g : Gateway) (bsize depth : ℚ) (seq : Bool) :
    (g.readCore bsize depth seq).t_cpu_pre
      = g.front.read_cpu g.min_msg
        + (g.readCore bsize depth seq).P_lock * g.back.read_cpu g.min_msg
        + (g.readCore bsize depth seq).P_lock * g.back.write_cpu g.min_msg
        + g.n * g.back.write_cpu g.min_msg
            / (g.readCore bsize depth seq).req_per_read
        + g.n * g.back.read_cpu (g.min_msg + bsize)
            / (g.readCore bsize depth seq).req_per_read := rfl

/-- The CPU time `Gateway.read` actually uses from the reassignment
on: data processing plus the front-side response cost only. -/
theorem Gateway.readCore_t_cpu (g : Gateway) (bsize depth : ℚ) (seq : Bool) :
    (g.readCore bsize depth seq).t_cpu
      = g.read_mult * g.cpu.process bsize + g.read_mem_x * g.cpu.mem_read bsize
        + g.front.write_cpu (g.min_msg + bsize) := rfl

/-- The value `Gateway.write` accumulates into `t_cpu` before the
checksum statement reassigns it: front request processing and the lock
messages. -/
theorem Gateway.writeCore_t_cpu_pre (g : Gateway) (bsize depth : ℚ) (seq : Bool) :
    (g.writeCore bsize depth seq).t_cpu_pre
      = g.front.read_cpu (g.min_msg + bsize)
        + (g.writeCore bsize depth seq).P_lock * g.back.read_cpu g.min_msg
        + (g.writeCore bsize depth seq).P_lock * g.back.write_cpu g.min_msg := rfl

/-- The CPU time `Gateway.write` actually uses from the reassignment
on: data processing/checksum, the per-shard back-side message costs
added after the reassignment, and the front-side response cost. -/
theorem Gateway.writeCore_t_cpu (g : Gateway) (bsize depth : ℚ) (seq : Bool) :
    (g.writeCore bsize depth seq).t_cpu
      = g.write_mult * g.cpu.process bsize
        + g.write_mem_x * g.cpu.mem_write bsize
        + (g.writeCore bsize depth seq).shape.checksum
        + (g.writeCore bsize depth seq).shape.reads * g.back.write_cpu g.min_msg
        + (g.writeCore bsize depth seq).shape.reads
            * g.back.read_cpu (g.min_msg + bsize)
        + (g.writeCore bsize depth seq).shape.writes
            * g.back.write_cpu (g.min_msg + bsize)
        + (g.writeCore bsize depth seq).shape.writes * g.back.read_cpu g.min_msg
        + (g.writeCore bsize depth seq).shape.commits * g.back.write_cpu g.min_msg
        + (g.writeCore bsize depth seq).shape.setattrs * g.back.write_cpu g.min_msg
        + g.front.write_cpu g.min_msg := rfl

end Model

namespace Claims

open Model

/-- C2, counterexample: at the reference gateway, a 4 KiB depth-1
random operation: the claim's CPU total (which would include the
pre-reassignment accumulation `t_cpu_pre`) differs from the CPU time
the code actually uses, because `t_cpu_pre` is positive and discarded,
in `Gateway.read` and `Gateway.write` alike. -/
theorem C2_cpu_sum_counterexample :
    0 < (refGateway.readCore 4096 1 false).t_cpu_pre
      ∧ (refGateway.readCore 4096 1 false).t_cpu
          ≠ (refGateway.readCore 4096 1 false).t_cpu_pre
            + (refGateway.readCore 4096 1 false).t_cpu
      ∧ 0 < (refGateway.writeCore 4096 1 false).t_cpu_pre
      ∧ (refGateway.writeCore 4096 1 false).t_cpu
          ≠ (refGateway.writeCore 4096 1 false).t_cpu_pre
            + (refGateway.writeCore 4096 1 false).t_cpu := by
  have hPr : (refGateway.readCore 4096 1 false).P_lock = 1 := rfl
  have hbr : ¬ (4096 : ℚ) > refGateway.width * refGateway.n := by
    norm_num [refGateway, Gateway.make, KB]
  have hRr : (refGateway.readCore 4096 1 false).req_per_read = 1 := by
    simp only [Gateway.readCore, if_neg hbr, Bool.false_eq_true, if_false]
  have hPw : (refGateway.writeCore 4096 1 false).P_lock = 1 := rfl
  have h1 : 0 < (refGateway.readCore 4096 1 false).t_cpu_pre := by
    rw [Gateway.readCore_t_cpu_pre, hPr, hRr]
    norm_num [refGateway, Gateway.make, defaultNIC, defaultCPU, CPU.make,
      NIC.make, IFC.read_cpu, IFC.write_cpu, CPU.process, CPU.mem_read,
      CPU.mem_write, GIG, MEG, MB, KB, SECOND]
  have h2 : 0 < (refGateway.writeCore 4096 1 false).t_cpu_pre := by
    rw [Gateway.writeCore_t_cpu_pre, hPw]
    norm_num [refGateway, Gateway.make, defaultNIC, defaultCPU, CPU.make,
      NIC.make, IFC.read_cpu, IFC.write_cpu, CPU.process, CPU.mem_read,
      CPU.mem_write, GIG, MEG, MB, KB, SECOND]
  exact ⟨h1, by intro h; nlinarith, h2, by intro h; nlinarith⟩

/-- C2, amended: the source reassigns `t_cpu` at the data-processing
statement, so the CPU time that determines `bw_cpu` and enters the
latency is only: for `read`, data processing plus the front response
cost (front request, lock-message, and per-shard back-NIC costs are
all discarded); for `write`, data processing/checksum plus the
per-shard back-NIC message costs added after the reassignment plus the
front response cost (front request and lock-message costs are
discarded). -/
theorem C2_cpu_reassigned (g : Gateway) (bsize depth : ℚ) (seq : Bool) :
    ((g.readCore bsize depth seq).t_cpu
        = g.read_mult * g.cpu.process bsize
          + g.read_mem_x * g.cpu.mem_read bsize
          + g.front.write_cpu (g.min_msg + bsize))
      ∧ ((g.writeCore bsize depth seq).t_cpu
        = g.write_mult * g.cpu.process bsize
          + g.write_mem_x * g.cpu.mem_write bsize
          + (g.writeCore bsize depth seq).shape.checksum
          + (g.writeCore bsize depth seq).shape.reads * g.back.write_cpu g.min_msg
          + (g.writeCore bsize depth seq).shape.reads
              * g.back.read_cpu (g.min_msg + bsize)
          + (g.writeCore bsize depth seq).shape.writes
              * g.back.write_cpu (g.min_msg + bsize)
          + (g.writeCore bsize depth seq).shape.writes * g.back.read_cpu g.min_msg
          + (g.writeCore bsize depth seq).shape.commits * g.back.write_cpu g.min_msg
          + (g.writeCore bsize depth seq).shape.setattrs * g.back.write_cpu g.min_msg
          + g.front.write_cpu g.min_msg)
      ∧ (g.readCore bsize depth seq).bw_cpu
          = (g.readCore bsize depth seq).avail_cores * bsize * SECOND
              / (g.readCore bsize depth seq).t_cpu
      ∧ (g.writeCore bsize depth seq).bw_cpu
          = (g.writeCore bsize depth seq).avail_cores * bsize * SECOND
              / (g.writeCore bsize depth seq).t_cpu :=
  ⟨Gateway.readCore_t_cpu g bsize depth seq,
   Gateway.writeCore_t_cpu g bsize depth seq, rfl, rfl⟩

end Claims

namespace Claims

open Model

/-- C8, counterexample: `latency(bsize)` is *not* non-decreasing for
every component.  The default disk's sequential-read time at depth 64
drops by ≈976 µs when `bsize` crosses the track size (read-ahead
ceases, so the rotational-latency reduction collapses from `l/4` to
`l/64`); and on the reference server both `read` (depth 32,
sequential) and `write` (depth 1, random) return a smaller latency at
a larger block size, because the queueing-delay term shrinks faster
than the base latency grows. -/
theorem C8_monotonicity_counterexample :
    ((1310720 : ℚ) < 1310721
        ∧ defaultDisk.avgTime 1310721 (16 * GIG) true true 64
            < defaultDisk.avgTime 1310720 (16 * GIG) true true 64)
      ∧ ((8192 : ℚ) < 16384
        ∧ (refServer.read 16384 32 true).1 < (refServer.read 8192 32 true).1)
      ∧ ((512 : ℚ) < 1024
        ∧ (refServer.write 1024 1 false).1 < (refServer.write 512 1 false).1) := by
  refine ⟨⟨by norm_num, ?_⟩, ⟨by norm_num, ?_⟩, ⟨by norm_num, ?_⟩⟩
  · norm_num [defaultDisk, Disk.make, Disk.avgTime, Disk.xferTime, Disk.latency,
      Disk.cache_size, Disk.cylinders_in, Disk.seekTime, GIG, TERA, MEG, MB, SECOND]
  · norm_num [refServer, Server.make, Server.read, Server.readCore, refFS,
      defaultNIC, defaultHBA, defaultCPU, CPU.make, NIC.make, HBA.make,
      IFC.read_time, IFC.write_time, IFC.read_cpu, IFC.write_cpu, CPU.process,
      CPU.mem_read, CPU.mem_write, CPU.queue_length, IFC.queue_length,
      queueLength, GIG, TERA, MEG, MB, KB, SECOND]
  · norm_num [refServer, Server.make, Server.write, Server.writeCore, refFS,
      defaultNIC, defaultHBA, defaultCPU, CPU.make, NIC.make, HBA.make,
      IFC.read_time, IFC.write_time, IFC.read_cpu, IFC.write_cpu, CPU.process,
      CPU.mem_read, CPU.mem_write, CPU.queue_length, IFC.queue_length,
      queueLength, GIG, TERA, MEG, MB, KB, SECOND]

/-- C8, amended: for fixed depth and pattern the latency is
non-decreasing in the byte count for the Interface wire-time functions
and for the SSD model (whose setup term does not depend on `bsize`);
the rotating-disk model and the server operations do not satisfy the
monotonicity (see the counterexample). -/
theorem C8_monotone_ifc_ssd (i : IFC) (s : SSD) (b1 b2 fsize depth : ℚ)
    (read seq : Bool) (hb : b1 ≤ b2)
    (hrbw : 0 < i.max_read_bw) (hwbw : 0 < i.max_write_bw)
    (hms : 0 < s.media_speed) (hcs : 0 < s.cyl_size)
    (hsr : 0 ≤ s.settle_read) (hwd : 0 ≤ s.write_delta)
    (hwp : 0 ≤ s.write_penalty) :
    i.read_time b1 ≤ i.read_time b2
      ∧ i.write_time b1 ≤ i.write_time b2
      ∧ s.avgTime b1 fsize read seq depth ≤ s.avgTime b2 fsize read seq depth := by
  have hSec : (0 : ℚ) ≤ SECOND := by norm_num [SECOND]
  refine ⟨?_, ?_, ?_⟩
  · unfold IFC.read_time
    have : SECOND * b1 / i.max_read_bw ≤ SECOND * b2 / i.max_read_bw := by
      apply div_le_div_of_nonneg_right ?_ hrbw.le
      · nlinarith
    linarith
  · unfold IFC.write_time
    have : SECOND * b1 / i.max_write_bw ≤ SECOND * b2 / i.max_write_bw := by
      apply div_le_div_of_nonneg_right ?_ hwbw.le
      · nlinarith
    linarith
  · have hx : s.xferTime b1 read ≤ s.xferTime b2 read := by
      unfold SSD.xferTime
      have h1 : b1 * SECOND / s.media_speed ≤ b2 * SECOND / s.media_speed := by
        apply div_le_div_of_nonneg_right ?_ hms.le
        · nlinarith
      have h2 : b1 / s.cyl_size * (if read then s.settle_read
            else s.settle_read + s.write_delta)
          ≤ b2 / s.cyl_size * (if read then s.settle_read
            else s.settle_read + s.write_delta) := by
        apply mul_le_mul_of_nonneg_right (div_le_div_of_nonneg_right hb hcs.le)
        rcases read with _ | _ <;> simp <;> linarith
      linarith
    have hx0 : 0 ≤ s.xferTime b1 read → True := fun _ => trivial
    unfold SSD.avgTime
    rcases read with _ | _
    · simp only [Bool.false_eq_true, if_false]
      have := mul_le_mul_of_nonneg_right hx hwp
      linarith
    · simp only [if_true]
      linarith

/-- C8, witness: the default NIC and SSD at 4 KiB vs 8 KiB. -/
theorem C8_monotone_ifc_ssd_witness :
    defaultNIC.read_time 4096 ≤ defaultNIC.read_time 8192
      ∧ defaultNIC.write_time 4096 ≤ defaultNIC.write_time 8192
      ∧ defaultSSD.avgTime 4096 (16 * GIG) true false 8
          ≤ defaultSSD.avgTime 8192 (16 * GIG) true false 8 := by
  exact C8_monotone_ifc_ssd defaultNIC defaultSSD 4096 8192 (16 * GIG) 8 true false
    (by norm_num)
    (by norm_num [defaultNIC, NIC.make, GIG])
    (by norm_num [defaultNIC, NIC.make, GIG])
    (by norm_num [defaultSSD, SSD.make, MEG, MB])
    (by norm_num [defaultSSD, SSD.make, GIG])
    (by norm_num [defaultSSD, SSD.make])
    (by norm_num [defaultSSD, SSD.make])
    (by norm_num [defaultSSD, SSD.make])

end Claims

namespace Model

/-! Field-extraction lemmas: each server/gateway intermediate equals
its defining formula, stated over the named fields so that concrete
instantiations can be evaluated one quantity at a time. -/

theorem Server.writeCore_t_net_w (s : Server) (bsize depth : ℚ) (seq : Bool) :
    (s.writeCore bsize depth seq).t_net_w
      = s.nic.min_write_latency + s.nic.write_time s.min_msg := rfl

theorem Server.writeCore_t_net_r (s : Server) (bsize depth : ℚ) (seq : Bool) :
    (s.writeCore bsize depth seq).t_net_r
      = s.nic.min_read_latency + s.nic.read_time (s.min_msg + bsize) := rfl

theorem Server.writeCore_t_sync (s : Server) (bsize depth : ℚ) (seq : Bool) :
    (s.writeCore bsize depth seq).t_sync
      = s.nic.read_cpu (s.min_msg + bsize) + s.nic.write_cpu s.min_msg
        + (s.w_cpu_x * s.cpu.process bsize + s.w_mem_x * s.cpu.mem_write bsize) := rfl

theorem Server.writeCore_latency (s : Server) (bsize depth : ℚ) (seq : Bool) :
    (s.writeCore bsize depth seq).latency
      = (s.writeCore bsize depth seq).t_net_w
        + (s.writeCore bsize depth seq).t_sync := rfl

theorem Server.writeCore_t_crt (s : Server) (bsize depth : ℚ) (seq : Bool) :
    (s.writeCore bsize depth seq).t_crt
      = (if bsize < s.max_obj_size then
          if seq then (s.data_fs.create false).latency / (s.max_obj_size / bsize)
          else (s.data_fs.create false).latency / 1
        else (s.data_fs.create false).latency) := rfl

theorem Server.writeCore_cpu_crt (s : Server) (bsize depth : ℚ) (seq : Bool) :
    (s.writeCore bsize depth seq).cpu_crt
      = (if bsize < s.max_obj_size ∧ seq then
          (s.data_fs.create false).cpuLoad * SECOND / (s.max_obj_size / bsize)
        else (s.data_fs.create false).cpuLoad * SECOND) := rfl

theorem Server.writeCore_t_fw (s : Server) (bsize depth : ℚ) (seq : Bool) :
    (s.writeCore bsize depth seq).t_fw
      = (s.data_fs.write s.data_width s.data_fs.size seq false
          (s.write_buf / (s.data_width * s.num_disks))).latency * bsize
          / s.data_width := rfl

theorem Server.writeCore_t_async (s : Server) (bsize depth : ℚ) (seq : Bool) :
    (s.writeCore bsize depth seq).t_async
      = (s.data_fs.write s.data_width s.data_fs.size seq false
          (s.write_buf / (s.data_width * s.num_disks))).cpuLoad * SECOND := rfl

theorem Server.writeCore_t_disk (s : Server) (bsize depth : ℚ) (seq : Bool) :
    (s.writeCore bsize depth seq).t_disk
      = (s.writeCore bsize depth seq).t_crt + (s.writeCore bsize depth seq).t_fw := rfl

theorem Server.writeCore_bw_fs (s : Server) (bsize depth : ℚ) (seq : Bool) :
    (s.writeCore bsize depth seq).bw_fs
      = SECOND * bsize * s.num_disks / (s.writeCore bsize depth seq).t_disk := rfl

theorem Server.writeCore_bw_n (s : Server) (bsize depth : ℚ) (seq : Bool) :
    (s.writeCore bsize depth seq).bw_n
      = s.num_nics * bsize * SECOND / (s.writeCore bsize depth seq).t_net_r := rfl

theorem Server.writeCore_cpu_per_op (s : Server) (bsize depth : ℚ) (seq : Bool) :
    (s.writeCore bsize depth seq).cpu_per_op
      = (s.writeCore bsize depth seq).t_sync + (s.writeCore bsize depth seq).t_async
        + (s.writeCore bsize depth seq).cpu_crt := rfl

theorem Server.writeCore_avail_cores (s : Server) (bsize depth : ℚ) (seq : Bool) :
    (s.writeCore bsize depth seq).avail_cores
      = s.num_cpus * s.cpu.cores * s.cpu.hyperthread := rfl

theorem Server.writeCore_bw_cpu (s : Server) (bsize depth : ℚ) (seq : Bool) :
    (s.writeCore bsize depth seq).bw_cpu
      = (s.writeCore bsize depth seq).avail_cores * SECOND * bsize
        / (s.writeCore bsize depth seq).cpu_per_op := rfl

theorem Server.writeCore_bw_hba (s : Server) (bsize depth : ℚ) (seq : Bool) :
    (s.writeCore bsize depth seq).bw_hba
      = s.num_hbas * s.hba.max_read_bw := rfl

theorem Server.writeCore_bw_base (s : Server) (bsize depth : ℚ) (seq : Bool) :
    (s.writeCore bsize depth seq).bw_base
      = depth * bsize * SECOND / (s.writeCore bsize depth seq).latency := rfl

theorem Server.writeCore_bandwidth (s : Server) (bsize depth : ℚ) (seq : Bool) :
    (s.writeCore bsize depth seq).bandwidth
      = min (min (min (min (s.writeCore bsize depth seq).bw_base
            (s.writeCore bsize depth seq).bw_n) (s.writeCore bsize depth seq).bw_fs)
          (s.writeCore bsize depth seq).bw_cpu)
        (s.writeCore bsize depth seq).bw_hba := rfl

theorem Server.writeCore_iops (s : Server) (bsize depth : ℚ) (seq : Bool) :
    (s.writeCore bsize depth seq).iops
      = (s.writeCore bsize depth seq).bandwidth / bsize := rfl

theorem Server.writeCore_load_net (s : Server) (bsize depth : ℚ) (seq : Bool) :
    (s.writeCore bsize depth seq).load.net
      = (s.writeCore bsize depth seq).t_net_w * (s.writeCore bsize depth seq).iops
        / (s.num_nics * SECOND) := rfl

theorem Server.writeCore_load_cpu (s : Server) (bsize depth : ℚ) (seq : Bool) :
    (s.writeCore bsize depth seq).load.cpu
      = (s.writeCore bsize depth seq).cpu_per_op * (s.writeCore bsize depth seq).iops
        / ((s.writeCore bsize depth seq).avail_cores * SECOND) := rfl

theorem Server.writeCore_q_delay (s : Server) (bsize depth : ℚ) (seq : Bool) :
    (s.writeCore bsize depth seq).q_delay
      = (s.writeCore bsize depth seq).t_net_w
          * queueLength (s.writeCore bsize depth seq).load.net depth
        + (s.writeCore bsize depth seq).cpu_per_op
          * queueLength (s.writeCore bsize depth seq).load.cpu depth := rfl

theorem Server.write_val (s : Server) (bsize depth : ℚ) (seq : Bool) :
    s.write bsize depth seq
      = ((s.writeCore bsize depth seq).latency + (s.writeCore bsize depth seq).q_delay,
         (s.writeCore bsize depth seq).bandwidth,
         (s.writeCore bsize depth seq).load) := rfl

theorem Server.readCore_t_net_w (s : Server) (bsize depth : ℚ) (seq : Bool) :
    (s.readCore bsize depth seq).t_net_w
      = s.nic.min_write_latency + s.nic.write_time (s.min_msg + bsize) := rfl

theorem Server.readCore_cpu_msg (s : Server) (bsize depth : ℚ) (seq : Bool) :
    (s.readCore bsize depth seq).cpu_msg
      = s.nic.read_cpu s.min_msg + s.r_cpu_x * s.cpu.process bsize
        + s.r_mem_x * s.cpu.mem_read bsize
        + s.nic.write_cpu (s.min_msg + bsize) := rfl

theorem Server.readCore_t_open (s : Server) (bsize depth : ℚ) (seq : Bool) :
    (s.readCore bsize depth seq).t_open
      = (if bsize < s.max_obj_size then
          if seq then s.data_fs.fsOpen.latency / (s.max_obj_size / bsize)
          else s.data_fs.fsOpen.latency / 1
        else s.data_fs.fsOpen.latency) := rfl

theorem Server.readCore_cpu_open (s : Server) (bsize depth : ℚ) (seq : Bool) :
    (s.readCore bsize depth seq).cpu_open
      = (if bsize < s.max_obj_size ∧ seq then
          s.data_fs.fsOpen.cpuLoad * SECOND / (s.max_obj_size / bsize)
        else s.data_fs.fsOpen.cpuLoad * SECOND) := rfl

theorem Server.readCore_t_fr (s : Server) (bsize depth : ℚ) (seq : Bool) :
    (s.readCore bsize depth seq).t_fr
      = (s.data_fs.read s.data_width s.data_fs.size
          (s.readCore bsize depth seq).s_eff (s.readCore bsize depth seq).d).latency
        / (s.readCore bsize depth seq).req_per_read := rfl

theorem Server.readCore_cpu_fs (s : Server) (bsize depth : ℚ) (seq : Bool) :
    (s.readCore bsize depth seq).cpu_fs
      = (s.data_fs.read s.data_width s.data_fs.size
          (s.readCore bsize depth seq).s_eff (s.readCore bsize depth seq).d).cpuLoad
        * SECOND / (s.readCore bsize depth seq).req_per_read := rfl

theorem Server.readCore_latency (s : Server) (bsize depth : ℚ) (seq : Bool) :
    (s.readCore bsize depth seq).latency
      = (s.readCore bsize depth seq).cpu_msg + (s.readCore bsize depth seq).t_open
        + (s.readCore bsize depth seq).t_fr + (s.readCore bsize depth seq).t_net_w := rfl

theorem Server.readCore_tot_cpu (s : Server) (bsize depth : ℚ) (seq : Bool) :
    (s.readCore bsize depth seq).tot_cpu
      = (s.readCore bsize depth seq).cpu_msg + (s.readCore bsize depth seq).cpu_fs
        + (s.readCore bsize depth seq).cpu_open := rfl

theorem Server.readCore_avail_cores (s : Server) (bsize depth : ℚ) (seq : Bool) :
    (s.readCore bsize depth seq).avail_cores
      = s.num_cpus * s.cpu.cores * s.cpu.hyperthread := rfl

theorem Server.readCore_bw_n (s : Server) (bsize depth : ℚ) (seq : Bool) :
    (s.readCore bsize depth seq).bw_n
      = s.num_nics * bsize * SECOND / (s.readCore bsize depth seq).t_net_w := rfl

theorem Server.readCore_bw_fs (s : Server) (bsize depth : ℚ) (seq : Bool) :
    (s.readCore bsize depth seq).bw_fs
      = SECOND * bsize * s.num_disks
        / ((s.readCore bsize depth seq).t_open + (s.readCore bsize depth seq).t_fr) := rfl

theorem Server.readCore_bw_cpu (s : Server) (bsize depth : ℚ) (seq : Bool) :
    (s.readCore bsize depth seq).bw_cpu
      = (s.readCore bsize depth seq).avail_cores * bsize * SECOND
        / (s.readCore bsize depth seq).tot_cpu := rfl

theorem Server.readCore_bw_hba (s : Server) (bsize depth : ℚ) (seq : Bool) :
    (s.readCore bsize depth seq).bw_hba
      = s.num_hbas * s.hba.max_read_bw := rfl

theorem Server.readCore_bw_base (s : Server) (bsize depth : ℚ) (seq : Bool) :
    (s.readCore bsize depth seq).bw_base
      = depth * bsize * SECOND / (s.readCore bsize depth seq).latency := rfl

theorem Server.readCore_bandwidth (s : Server) (bsize depth : ℚ) (seq : Bool) :
    (s.readCore bsize depth seq).bandwidth
      = min (min (min (min (s.readCore bsize depth seq).bw_base
            (s.readCore bsize depth seq).bw_n) (s.readCore bsize depth seq).bw_fs)
          (s.readCore bsize depth seq).bw_cpu)
        (s.readCore bsize depth seq).bw_hba := rfl

theorem Server.readCore_iops (s : Server) (bsize depth : ℚ) (seq : Bool) :
    (s.readCore bsize depth seq).iops
      = (s.readCore bsize depth seq).bandwidth / bsize := rfl

theorem Server.readCore_load_net (s : Server) (bsize depth : ℚ) (seq : Bool) :
    (s.readCore bsize depth seq).load.net
      = (s.readCore bsize depth seq).t_net_w * (s.readCore bsize depth seq).iops
        / (s.num_nics * SECOND) := rfl

theorem Server.readCore_load_cpu (s : Server) (bsize depth : ℚ) (seq : Bool) :
    (s.readCore bsize depth seq).load.cpu
      = (s.readCore bsize depth seq).tot_cpu * (s.readCore bsize depth seq).iops
        / ((s.readCore bsize depth seq).avail_cores * SECOND) := rfl

theorem Server.readCore_q_delay (s : Server) (bsize depth : ℚ) (seq : Bool) :
    (s.readCore bsize depth seq).q_delay
      = (s.readCore bsize depth seq).t_net_w
          * queueLength (s.readCore bsize depth seq).load.net depth
        + (s.readCore bsize depth seq).tot_cpu
          * queueLength (s.readCore bsize depth seq).load.cpu depth := rfl

theorem Server.read_val (s : Server) (bsize depth : ℚ) (seq : Bool) :
    s.read bsize depth seq
      = ((s.readCore bsize depth seq).latency + (s.readCore bsize depth seq).q_delay,
         (s.readCore bsize depth seq).bandwidth,
         (s.readCore bsize depth seq).load) := rfl

end Model

namespace Model

theorem Gateway.writeCore_latency_parts (g : Gateway) (bsize depth : ℚ) (seq : Bool) :
    (g.writeCore bsize depth seq).latency
      = (g.writeCore bsize depth seq).t_front_w + (g.writeCore bsize depth seq).t_back_w
        + (g.writeCore bsize depth seq).t_cpu + (g.writeCore bsize depth seq).t_lock
        + (g.writeCore bsize depth seq).t_svr := rfl

theorem Gateway.writeCore_t_front_w (g : Gateway) (bsize depth : ℚ) (seq : Bool) :
    (g.writeCore bsize depth seq).t_front_w
      = g.front.min_read_latency + g.front.read_time g.min_msg := rfl

theorem Gateway.writeCore_P_lock (g : Gateway) (bsize depth : ℚ) (seq : Bool) :
    (g.writeCore bsize depth seq).P_lock
      = (if seq then bsize / (g.width * g.n) else 1) := rfl

theorem Gateway.writeCore_t_lock (g : Gateway) (bsize depth : ℚ) (seq : Bool) :
    (g.writeCore bsize depth seq).t_lock
      = (g.writeCore bsize depth seq).P_lock * g.dlm.lock.1 := rfl

theorem Gateway.writeCore_t_back_w (g : Gateway) (bsize depth : ℚ) (seq : Bool) :
    (g.writeCore bsize depth seq).t_back_w
      = (g.writeCore bsize depth seq).P_lock
          * (g.front.min_read_latency + g.front.read_time g.min_msg)
        + (g.writeCore bsize depth seq).shape.reads
          * (g.front.min_read_latency + g.front.read_time g.min_msg)
        + (g.writeCore bsize depth seq).shape.writes
          * (g.front.min_read_latency + g.front.read_time (g.min_msg + bsize))
        + (g.writeCore bsize depth seq).shape.commits
          * (g.front.min_read_latency + g.front.read_time g.min_msg)
        + (g.writeCore bsize depth seq).shape.setattrs
          * (g.front.min_read_latency + g.front.read_time g.min_msg) := rfl

theorem Gateway.writeCore_t_svr (g : Gateway) (bsize depth : ℚ) (seq : Bool) :
    (g.writeCore bsize depth seq).t_svr
      = (g.writeCore bsize depth seq).shape.t_s_r
        + (g.writeCore bsize depth seq).shape.t_s_w
        + (g.writeCore bsize depth seq).shape.t_s_s
        + g.server.commit.1 := rfl

/-- The read-modify-write shape `Gateway.write` selects for a random
write no larger than one stripe. -/
theorem Gateway.writeCore_shape_rmw (g : Gateway) (bsize depth : ℚ)
    (hbr : ¬ bsize > g.width * g.n) :
    (g.writeCore bsize depth false).shape
      = { t_s_w := (g.server.write g.width depth false).1
          bw_svr0 := (g.server.write g.width depth false).2.1
          t_s_r := (g.server.read g.width depth false).1
          t_s_s := (g.server.setattr 0 false).1
          reads := g.n
          writes := 1 + g.m
          commits := 1 + g.m
          setattrs := g.n - 1
          checksum := (g.n - 1) * g.write_mult * g.cpu.process bsize } := by
  simp only [Gateway.writeCore, if_neg hbr, Bool.false_eq_true, if_false]

/-- The aggregated-stripe shape `Gateway.write` selects for a
sequential write no larger than one stripe. -/
theorem Gateway.writeCore_shape_seqagg (g : Gateway) (bsize depth : ℚ)
    (hbr : ¬ bsize > g.width * g.n) :
    (g.writeCore bsize depth true).shape
      = { t_s_w := (g.server.write g.width
              (max 1 (depth * bsize / (g.width * g.n))) true).1
            / (g.width * g.n / bsize)
          bw_svr0 := (g.server.write g.width
              (max 1 (depth * bsize / (g.width * g.n))) true).2.1
          t_s_r := 0
          t_s_s := 0
          reads := 0
          writes := g.n + g.m
          commits := g.n + g.m
          setattrs := 0
          checksum := 0 } := by
  simp only [Gateway.writeCore, if_neg hbr, if_true]

/-- `queue_length` never returns a negative value. -/
theorem queueLength_nonneg (rho maxd : ℚ) (h0 : 0 ≤ rho) (hm : 0 ≤ maxd) :
    0 ≤ queueLength rho maxd := by
  unfold queueLength
  rcases le_or_lt 1 rho with h | h
  · rw [if_pos h]; exact hm
  · rw [if_neg (not_le.mpr h)]
    have h1r : 0 < 1 - rho := by linarith
    have : 0 ≤ rho / (1 - rho) := div_nonneg h0 h1r.le
    rcases lt_or_ge (rho / (1 - rho)) maxd with h2 | h2
    · rw [if_pos h2]; exact this
    · rw [if_neg (not_lt.mpr h2)]; exact hm

/-- `queue_length` at a load below 1, when the uncapped value is below
the cap, is exactly `rho/(1-rho)`. -/
theorem queueLength_uncapped (rho maxd : ℚ) (h1 : rho < 1)
    (h2 : rho / (1 - rho) < maxd) :
    queueLength rho maxd = rho / (1 - rho) := by
  unfold queueLength
  rw [if_neg (not_le.mpr h1), if_pos h2]

end Model

namespace Model

theorem Server.write_fst (s : Server) (bsize depth : ℚ) (seq : Bool) :
    (s.write bsize depth seq).1
      = (s.writeCore bsize depth seq).latency + (s.writeCore bsize depth seq).q_delay := rfl

theorem Server.read_fst (s : Server) (bsize depth : ℚ) (seq : Bool) :
    (s.read bsize depth seq).1
      = (s.readCore bsize depth seq).latency + (s.readCore bsize depth seq).q_delay := rfl

/-! Exact values of the reference server's intermediates for
strip-sized (128 KiB) operations, as functions of the queue depth. -/

theorem refW_t_net_w (x : ℚ) (seq : Bool) :
    (refServer.writeCore 131072 x seq).t_net_w = 330805/32768 := by
  rw [Server.writeCore_t_net_w]
  norm_num [refServer, Server.make, defaultNIC, NIC.make, defaultCPU, CPU.make,
    IFC.write_time, GIG, MEG, MB, SECOND]

theorem refW_latency (x : ℚ) (seq : Bool) :
    (refServer.writeCore 131072 x seq).latency = 81072255/524288 := by
  rw [Server.writeCore_latency, Server.writeCore_t_sync, refW_t_net_w]
  norm_num [refServer, Server.make, defaultNIC, NIC.make, defaultCPU, CPU.make,
    IFC.read_cpu, IFC.write_cpu, CPU.process, CPU.mem_read, CPU.mem_write,
    GIG, MEG, MB, SECOND]

theorem refW_cpu_per_op_seq (x : ℚ) :
    (refServer.writeCore 131072 x true).cpu_per_op = 129846575/524288 := by
  rw [Server.writeCore_cpu_per_op, Server.writeCore_t_sync,
    Server.writeCore_t_async, Server.writeCore_cpu_crt]
  norm_num [refServer, Server.make, refFS, defaultNIC, NIC.make, defaultCPU, CPU.make,
    IFC.read_cpu, IFC.write_cpu, CPU.process, CPU.mem_read, CPU.mem_write,
    GIG, MEG, MB, TERA, SECOND]

theorem refW_cpu_per_op_rnd (x : ℚ) :
    (refServer.writeCore 131072 x false).cpu_per_op = 180636975/524288 := by
  rw [Server.writeCore_cpu_per_op, Server.writeCore_t_sync,
    Server.writeCore_t_async, Server.writeCore_cpu_crt]
  norm_num [refServer, Server.make, refFS, defaultNIC, NIC.make, defaultCPU, CPU.make,
    IFC.read_cpu, IFC.write_cpu, CPU.process, CPU.mem_read, CPU.mem_write,
    GIG, MEG, MB, TERA, SECOND]

theorem refW_bw_n (x : ℚ) (seq : Bool) :
    (refServer.writeCore 131072 x seq).bw_n = 858993459200000/706161 := by
  rw [Server.writeCore_bw_n, Server.writeCore_t_net_r]
  norm_num [refServer, Server.make, defaultNIC, NIC.make, defaultCPU, CPU.make,
    IFC.read_time, GIG, MEG, MB, SECOND]

theorem refW_bw_fs_seq (x : ℚ) :
    (refServer.writeCore 131072 x true).bw_fs = 1677721600/13 := by
  rw [Server.writeCore_bw_fs, Server.writeCore_t_disk, Server.writeCore_t_crt,
    Server.writeCore_t_fw]
  norm_num [refServer, Server.make, refFS, GIG, MEG, MB, TERA, SECOND]

theorem refW_bw_fs_rnd (x : ℚ) :
    (refServer.writeCore 131072 x false).bw_fs = 262144000/3 := by
  rw [Server.writeCore_bw_fs, Server.writeCore_t_disk, Server.writeCore_t_crt,
    Server.writeCore_t_fw]
  norm_num [refServer, Server.make, refFS, GIG, MEG, MB, TERA, SECOND]

theorem refW_bw_cpu_seq (x : ℚ) :
    (refServer.writeCore 131072 x true).bw_cpu = 3573412790272000/5193863 := by
  rw [Server.writeCore_bw_cpu, Server.writeCore_avail_cores, refW_cpu_per_op_seq]
  norm_num [refServer, Server.make, defaultCPU, CPU.make, GIG, MEG, MB, SECOND]

theorem refW_bw_cpu_rnd (x : ℚ) :
    (refServer.writeCore 131072 x false).bw_cpu = 3573412790272000/7225479 := by
  rw [Server.writeCore_bw_cpu, Server.writeCore_avail_cores, refW_cpu_per_op_rnd]
  norm_num [refServer, Server.make, defaultCPU, CPU.make, GIG, MEG, MB, SECOND]

theorem refW_bw_hba (x : ℚ) (seq : Bool) :
    (refServer.writeCore 131072 x seq).bw_hba = 2147483648 := by
  rw [Server.writeCore_bw_hba]
  norm_num [refServer, Server.make, defaultHBA, HBA.make, defaultCPU, CPU.make,
    GIG, MEG, MB]

theorem refW_bw_base (x : ℚ) (seq : Bool) :
    (refServer.writeCore 131072 x seq).bw_base = x * (13743895347200000/16214451) := by
  rw [Server.writeCore_bw_base, refW_latency]
  rw [SECOND]
  rw [div_eq_iff (by norm_num)]
  ring

theorem refW_bandwidth_seq (x : ℚ) (hx : 1 ≤ x) :
    (refServer.writeCore 131072 x true).bandwidth = 1677721600/13 := by
  rw [Server.writeCore_bandwidth, refW_bw_base, refW_bw_n, refW_bw_fs_seq,
    refW_bw_cpu_seq, refW_bw_hba]
  have h1 : (1677721600 : ℚ)/13 ≤ x * (13743895347200000/16214451) := by nlinarith
  rw [min_eq_right (le_min h1 (by norm_num)), min_eq_left (by norm_num),
    min_eq_left (by norm_num)]

theorem refW_bandwidth_rnd (x : ℚ) (hx : 1 ≤ x) :
    (refServer.writeCore 131072 x false).bandwidth = 262144000/3 := by
  rw [Server.writeCore_bandwidth, refW_bw_base, refW_bw_n, refW_bw_fs_rnd,
    refW_bw_cpu_rnd, refW_bw_hba]
  have h1 : (262144000 : ℚ)/3 ≤ x * (13743895347200000/16214451) := by nlinarith
  rw [min_eq_right (le_min h1 (by norm_num)), min_eq_left (by norm_num),
    min_eq_left (by norm_num)]

theorem refW_load_net_seq (x : ℚ) (hx : 1 ≤ x) :
    (refServer.writeCore 131072 x true).load.net = 66161/6656000 := by
  rw [Server.writeCore_load_net, Server.writeCore_iops, refW_bandwidth_seq x hx,
    refW_t_net_w]
  norm_num [refServer, Server.make, SECOND]

theorem refW_load_cpu_seq (x : ℚ) (hx : 1 ≤ x) :
    (refServer.writeCore 131072 x true).load.cpu = 5193863/27688960 := by
  rw [Server.writeCore_load_cpu, Server.writeCore_iops, Server.writeCore_avail_cores,
    refW_bandwidth_seq x hx, refW_cpu_per_op_seq]
  norm_num [refServer, Server.make, defaultCPU, CPU.make, GIG, MEG, MB, SECOND]

theorem refW_load_net_rnd (x : ℚ) (hx : 1 ≤ x) :
    (refServer.writeCore 131072 x false).load.net = 66161/9830400 := by
  rw [Server.writeCore_load_net, Server.writeCore_iops, refW_bandwidth_rnd x hx,
    refW_t_net_w]
  norm_num [refServer, Server.make, SECOND]

theorem refW_load_cpu_rnd (x : ℚ) (hx : 1 ≤ x) :
    (refServer.writeCore 131072 x false).load.cpu = 2408493/13631488 := by
  rw [Server.writeCore_load_cpu, Server.writeCore_iops, Server.writeCore_avail_cores,
    refW_bandwidth_rnd x hx, refW_cpu_per_op_rnd]
  norm_num [refServer, Server.make, defaultCPU, CPU.make, GIG, MEG, MB, SECOND]

theorem refW_total_seq (x : ℚ) (hx : 1 ≤ x) :
    (refServer.write 131072 x true).1 = 502629863161998425/2371825080310128 := by
  rw [Server.write_fst, refW_latency, Server.writeCore_q_delay, refW_t_net_w,
    refW_cpu_per_op_seq, refW_load_net_seq x hx, refW_load_cpu_seq x hx,
    queueLength_uncapped _ _ (by norm_num) (lt_of_lt_of_le (by norm_num) hx),
    queueLength_uncapped _ _ (by norm_num) (lt_of_lt_of_le (by norm_num) hx)]
  norm_num

theorem refW_total_rnd (x : ℚ) (hx : 1 ≤ x) :
    (refServer.write 131072 x false).1 = 5011066652538830/21916801095161 := by
  rw [Server.write_fst, refW_latency, Server.writeCore_q_delay, refW_t_net_w,
    refW_cpu_per_op_rnd, refW_load_net_rnd x hx, refW_load_cpu_rnd x hx,
    queueLength_uncapped _ _ (by norm_num) (lt_of_lt_of_le (by norm_num) hx),
    queueLength_uncapped _ _ (by norm_num) (lt_of_lt_of_le (by norm_num) hx)]
  norm_num

end Model

namespace Model

theorem refR_req (x : ℚ) :
    (refServer.readCore 131072 x false).req_per_read = 1 := by
  simp only [Server.readCore, refServer, Server.make]
  norm_num

theorem refR_t_net_w (x : ℚ) :
    (refServer.readCore 131072 x false).t_net_w = 3530805/32768 := by
  rw [Server.readCore_t_net_w]
  norm_num [refServer, Server.make, defaultNIC, NIC.make, defaultCPU, CPU.make,
    IFC.write_time, GIG, MEG, MB, SECOND]

theorem refR_cpu_msg (x : ℚ) :
    (refServer.readCore 131072 x false).cpu_msg = 73219375/524288 := by
  rw [Server.readCore_cpu_msg]
  norm_num [refServer, Server.make, defaultNIC, NIC.make, defaultCPU, CPU.make,
    IFC.read_cpu, IFC.write_cpu, CPU.process, CPU.mem_read, CPU.mem_write,
    GIG, MEG, MB, SECOND]

theorem refR_t_open (x : ℚ) :
    (refServer.readCore 131072 x false).t_open = 200 := by
  rw [Server.readCore_t_open]
  norm_num [refServer, Server.make, refFS]

theorem refR_t_fr (x : ℚ) :
    (refServer.readCore 131072 x false).t_fr = 1000 := by
  rw [Server.readCore_t_fr, refR_req]
  norm_num [refServer, Server.make, refFS]

theorem refR_latency (x : ℚ) :
    (refServer.readCore 131072 x false).latency = 758857855/524288 := by
  rw [Server.readCore_latency, refR_cpu_msg, refR_t_open, refR_t_fr, refR_t_net_w]
  norm_num

theorem refR_tot_cpu (x : ℚ) :
    (refServer.readCore 131072 x false).tot_cpu = 178076975/524288 := by
  rw [Server.readCore_tot_cpu, refR_cpu_msg, Server.readCore_cpu_fs,
    Server.readCore_cpu_open, refR_req]
  norm_num [refServer, Server.make, refFS, SECOND]

theorem refR_bandwidth_nonneg (x : ℚ) (hx : 1 ≤ x) :
    0 ≤ (refServer.readCore 131072 x false).bandwidth := by
  rw [Server.readCore_bandwidth]
  have hbase : (0 : ℚ) ≤ (refServer.readCore 131072 x false).bw_base := by
    rw [Server.readCore_bw_base, refR_latency]
    have hx0 : (0 : ℚ) ≤ x := by linarith
    exact div_nonneg (mul_nonneg (mul_nonneg hx0 (by norm_num))
      (by norm_num [SECOND])) (by norm_num)
  have hn : (0 : ℚ) ≤ (refServer.readCore 131072 x false).bw_n := by
    rw [Server.readCore_bw_n, refR_t_net_w]
    norm_num [refServer, Server.make, SECOND]
  have hfs : (0 : ℚ) ≤ (refServer.readCore 131072 x false).bw_fs := by
    rw [Server.readCore_bw_fs, refR_t_open, refR_t_fr]
    norm_num [refServer, Server.make, SECOND]
  have hcpu : (0 : ℚ) ≤ (refServer.readCore 131072 x false).bw_cpu := by
    rw [Server.readCore_bw_cpu, Server.readCore_avail_cores, refR_tot_cpu]
    norm_num [refServer, Server.make, defaultCPU, CPU.make, GIG, MEG, MB, SECOND]
  have hhba : (0 : ℚ) ≤ (refServer.readCore 131072 x false).bw_hba := by
    rw [Server.readCore_bw_hba]
    norm_num [refServer, Server.make, defaultHBA, HBA.make, defaultCPU, CPU.make,
      GIG, MEG, MB]
  exact le_min (le_min (le_min (le_min hbase hn) hfs) hcpu) hhba

theorem refR_q_delay_nonneg (x : ℚ) (hx : 1 ≤ x) :
    0 ≤ (refServer.readCore 131072 x false).q_delay := by
  have hx0 : (0 : ℚ) ≤ x := by linarith
  have hiops : 0 ≤ (refServer.readCore 131072 x false).iops := by
    rw [Server.readCore_iops]
    exact div_nonneg (refR_bandwidth_nonneg x hx) (by norm_num)
  have hnet : 0 ≤ (refServer.readCore 131072 x false).load.net := by
    rw [Server.readCore_load_net, refR_t_net_w]
    apply div_nonneg (mul_nonneg (by norm_num) hiops)
    norm_num [refServer, Server.make, SECOND]
  have hcpu : 0 ≤ (refServer.readCore 131072 x false).load.cpu := by
    rw [Server.readCore_load_cpu, Server.readCore_avail_cores, refR_tot_cpu]
    apply div_nonneg (mul_nonneg (by norm_num) hiops)
    norm_num [refServer, Server.make, defaultCPU, CPU.make, GIG, MEG, MB, SECOND]
  rw [Server.readCore_q_delay, refR_t_net_w, refR_tot_cpu]
  have q1 := queueLength_nonneg _ _ hnet hx0
  have q2 := queueLength_nonneg _ _ hcpu hx0
  exact add_nonneg (mul_nonneg (by norm_num) q1) (mul_nonneg (by norm_num) q2)

theorem refR_total_ge (x : ℚ) (hx : 1 ≤ x) :
    758857855/524288 ≤ (refServer.read 131072 x false).1 := by
  rw [Server.read_fst, refR_latency]
  linarith [refR_q_delay_nonneg x hx]

theorem refSetattr_val : (refServer.setattr 0 false).1 = 154569855/524288 := by
  norm_num [Server.setattr, refServer, Server.make, refFS, defaultNIC, NIC.make,
    defaultCPU, CPU.make, IFC.write_time, IFC.read_cpu, IFC.write_cpu,
    CPU.process, CPU.mem_read, CPU.mem_write, GIG, MEG, MB, SECOND]

theorem refCommit_val : refServer.commit.1 = 50236543/524288 := by
  norm_num [Server.commit, refServer, Server.make, defaultNIC, NIC.make,
    defaultCPU, CPU.make, IFC.write_time, IFC.read_cpu, IFC.write_cpu,
    CPU.process, CPU.mem_read, CPU.mem_write, GIG, MEG, MB, SECOND]

theorem refDLM_lock_val : refDLM.lock.1 = 50236543/524288 := by
  norm_num [DLM.lock, refDLM, DLM.make, defaultNIC, NIC.make,
    defaultCPU, CPU.make, IFC.write_time, IFC.read_cpu, IFC.write_cpu,
    CPU.process, CPU.mem_read, CPU.mem_write, GIG, MEG, MB, SECOND]

end Model

namespace Model

theorem refGW_server : refGateway.server = refServer := rfl

theorem refGW_dlm : refGateway.dlm = refDLM := rfl

theorem refGW_width : refGateway.width = 131072 := by
  norm_num [refGateway, Gateway.make, KB]

theorem refGW_n : refGateway.n = 5 := rfl

theorem refGW_m : refGateway.m = 2 := rfl

theorem refGW_front : refGateway.front = defaultNIC := rfl

theorem refGW_back : refGateway.back = defaultNIC := rfl

theorem refGW_cpu : refGateway.cpu = defaultCPU := rfl

theorem refGW_min_msg : refGateway.min_msg = 128 := rfl

theorem refGW_wm : refGateway.write_mult = 3 := rfl

theorem refGW_wmx : refGateway.write_mem_x = 5 + 2 := rfl

end Model

namespace Claims

open Model

set_option maxHeartbeats 8000000 in
/-- C5, counterexample: at the reference gateway (default components,
`n=5, m=2, strip=128K`, reference file system), a 64 KiB write — well
below one strip width — at depth 32 has a *smaller* returned latency
on the random read-modify-write path than on the sequential path: the
sequential path achieves much higher bandwidth, and the added
queueing-delay term grows with the achieved load, outweighing the
read-modify-write overhead. -/
theorem C5_rmw_counterexample :
    (refGateway.write 65536 32 false).1 < (refGateway.write 65536 32 true).1 := by
  norm_num [refGateway, Gateway.make, Gateway.write, Gateway.writeCore, refServer,
    Server.make, Server.read, Server.readCore, Server.write, Server.writeCore,
    Server.setattr, Server.commit, refDLM, DLM.make, DLM.lock, refFS,
    defaultNIC, defaultHBA, defaultCPU, CPU.make, NIC.make, HBA.make,
    IFC.read_time, IFC.write_time, IFC.read_cpu, IFC.write_cpu,
    CPU.process, CPU.mem_read, CPU.mem_write, CPU.queue_length, IFC.queue_length,
    queueLength, GIG, TERA, MEG, MB, KB, SECOND]

/-- C5, amended: for every block size in `(0, strip width)` and every
depth ≥ 1, the *pre-queueing* latency of the random read-modify-write
path of `Gateway.write` (which issues `n` server reads, `1+m` shard
writes, `1+m` commits, `n-1` setattrs and `n-1` extra checksum
computations) strictly exceeds the sequential aggregated-stripe
path's, at the reference instantiation; the *returned* latency adds a
per-resource queueing delay which can invert the comparison (see the
counterexample). -/
theorem C5_rmw_base_latency (b d : ℚ) (_hb0 : 0 < b) (hbw : b < 131072)
    (hd : 1 ≤ d) :
    (refGateway.writeCore b d true).latency
      < (refGateway.writeCore b d false).latency := by
  have hwn : refGateway.width * refGateway.n = 655360 := by
    rw [refGW_width, refGW_n]; norm_num
  have hbr : ¬ b > refGateway.width * refGateway.n := by
    rw [hwn]; intro h; linarith
  have hsr := Gateway.writeCore_shape_rmw refGateway b d hbr
  have hss := Gateway.writeCore_shape_seqagg refGateway b d hbr
  rw [Gateway.writeCore_latency_parts refGateway b d true,
      Gateway.writeCore_latency_parts refGateway b d false]
  simp only [Gateway.writeCore_t_front_w, Gateway.writeCore_t_back_w,
    Gateway.writeCore_t_cpu, Gateway.writeCore_t_lock, Gateway.writeCore_t_svr,
    Gateway.writeCore_P_lock, hsr, hss, refGW_server, refGW_dlm, refGW_width,
    refGW_n, refGW_m]
  clear hsr hss hbr hwn
  rw [refW_total_rnd d hd, refW_total_seq _ (le_max_left 1 _),
    refSetattr_val, refCommit_val, refDLM_lock_val]
  have hR := refR_total_ge d hd
  set Rv := (refServer.read 131072 d false).1 with hRv
  simp only [if_true, Bool.false_eq_true, if_false]
  have hdiv : (502629863161998425/2371825080310128 : ℚ) / (131072 * 5 / b)
      = 502629863161998425/2371825080310128 * b / 655360 := by
    rw [div_div_eq_mul_div]
    norm_num
  rw [hdiv]
  simp only [refGW_front, refGW_back, refGW_cpu, refGW_min_msg, refGW_wm, refGW_wmx,
    defaultNIC, NIC.make, defaultCPU, CPU.make, IFC.read_time, IFC.write_cpu,
    IFC.read_cpu, CPU.process, CPU.mem_read, CPU.mem_write]
  norm_num [GIG, MEG, MB, SECOND]
  nlinarith [hR]

/-- C5, witness for the amended statement. -/
theorem C5_rmw_base_latency_witness :
    (0 : ℚ) < 4096 ∧ (4096 : ℚ) < 131072 ∧ (1 : ℚ) ≤ 2
      ∧ (refGateway.writeCore 4096 2 true).latency
          < (refGateway.writeCore 4096 2 false).latency :=
  ⟨by norm_num, by norm_num, by norm_num,
   C5_rmw_base_latency 4096 2 (by norm_num) (by norm_num) (by norm_num)⟩

end Claims
